import Mathlib

/-!
Shallow embedding of the weather-api-mcp-server handler module
(src/weather_api_mcp_server/handlers.py) and proofs about its validation,
dispatch and historical-range aggregation logic.

Modelling conventions:
- JSON values returned by the provider are the inductive `Json`.
- Python exceptions are values of `WError`; fallible code returns `Except`.
- The HTTP layer (httpx) is a collaborator `Net` mapping a `ProviderRequest`
  to a transport outcome; `fetch` translates the handler module function of
  the same name on top of it.
- `datetime.now()` is a `Now` value: a calendar day ordinal plus the number
  of seconds elapsed since midnight. Parsed `YYYY-MM-DD` datetimes sit at
  midnight of their day, so Python datetime comparison and subtraction
  become integer arithmetic on seconds.
- Each handler additionally returns the list of per-call requests it handed
  to the fetch collaborator, so that claims about the number of collaborator
  invocations are statable.
-/

namespace WeatherApi

/-- JSON-like payloads (the shapes resp.json() can produce that matter here). -/
inductive Json where
  | null : Json
  | bool : Bool → Json
  | num : Int → Json
  | str : String → Json
  | arr : List Json → Json
  | obj : List (String × Json) → Json

mutual

/-- Structural equality of JSON values (Python == on parsed JSON). -/
def beqJson : Json → Json → Bool
  | .null, .null => true
  | .bool a, .bool b => a == b
  | .num a, .num b => a == b
  | .str a, .str b => a == b
  | .arr a, .arr b => beqJsonList a b
  | .obj a, .obj b => beqJsonFields a b
  | _, _ => false

def beqJsonList : List Json → List Json → Bool
  | [], [] => true
  | x :: xs, y :: ys => beqJson x y && beqJsonList xs ys
  | _, _ => false

def beqJsonFields : List (String × Json) → List (String × Json) → Bool
  | [], [] => true
  | (k1, v1) :: xs, (k2, v2) :: ys => k1 == k2 && beqJson v1 v2 && beqJsonFields xs ys
  | _, _ => false

end

instance : BEq Json := ⟨beqJson⟩

/-- Python exception kinds raised by the handler module. -/
inductive WError where
  | valueError : String → WError
  | keyError : String → WError
  | typeError : String → WError
  | attributeError : String → WError
  deriving DecidableEq

/-- One outbound call description handed to the fetch collaborator. -/
structure ProviderRequest where
  endpoint : String
  params : List (String × String)
  deriving DecidableEq

/-- Outcome of the underlying HTTP GET: a response with status code, the
optional parsed JSON body (none when resp.json() raised) and raw text, or a
transport-level httpx.RequestError. -/
inductive NetOutcome where
  | response : Nat → Option Json → String → NetOutcome
  | requestError : String → NetOutcome

/-- The network collaborator: the sole boundary to the provider. -/
abbrev Net := ProviderRequest → NetOutcome

/-- Python truthiness of a JSON value. -/
def pyTruthy : Json → Bool
  | .null => false
  | .bool b => b
  | .num n => n != 0
  | .str s => !s.isEmpty
  | .arr xs => !xs.isEmpty
  | .obj m => !m.isEmpty

/-- Python type name of a JSON value, as it appears in runtime error text. -/
def pyTypeName : Json → String
  | .null => "NoneType"
  | .bool _ => "bool"
  | .num _ => "int"
  | .str _ => "str"
  | .arr _ => "list"
  | .obj _ => "dict"

/-- Whether the first character list is an initial segment of the second. -/
def leadsChars : List Char → List Char → Bool
  | [], _ => true
  | _ :: _, [] => false
  | c :: cs, d :: ds => c == d && leadsChars cs ds

/-- Whether the first character list occurs contiguously inside the second. -/
def hasRunChars (p : List Char) : List Char → Bool
  | [] => leadsChars p []
  | d :: ds => leadsChars p (d :: ds) || hasRunChars p ds

/-- Python membership test `key in j` for a string key. On dicts it is a key
test, on lists an element test, on strings a substring test; other payload
types raise TypeError. -/
def pyContains (key : String) (j : Json) : Except WError Bool :=
  match j with
  | .obj m => .ok ((m.lookup key).isSome)
  | .arr xs => .ok (xs.contains (Json.str key))
  | .str s => .ok (hasRunChars key.data s.data)
  | other => .error (.typeError ("argument of type '" ++ pyTypeName other ++ "' is not iterable"))

/-- Python subscript `j[key]` for a string key: dict lookup raising KeyError
when absent; TypeError on the other payload types. -/
def pyIndex (j : Json) (key : String) : Except WError Json :=
  match j with
  | .obj m =>
    match m.lookup key with
    | some v => .ok v
    | none => .error (.keyError key)
  | .str _ => .error (.typeError "string indices must be integers")
  | .arr _ => .error (.typeError "list indices must be integers or slices, not str")
  | other => .error (.typeError ("'" ++ pyTypeName other ++ "' object is not subscriptable"))

/-- Elements contributed when a JSON value is consumed by list.extend:
lists give their items, strings their characters, dicts their keys; the
remaining payload types raise TypeError. -/
def pyElems (j : Json) : Except WError (List Json) :=
  match j with
  | .arr xs => .ok xs
  | .str s => .ok (s.data.map (fun c => Json.str (String.mk [c])))
  | .obj m => .ok (m.map (fun p => Json.str p.1))
  | other => .error (.typeError ("'" ++ pyTypeName other ++ "' object is not iterable"))

mutual

/-- Python repr() of a parsed-JSON value, used when a JSON value is
interpolated into an f-string inside an error message. -/
def pyRepr : Json → String
  | .null => "None"
  | .bool true => "True"
  | .bool false => "False"
  | .num n => toString n
  | .str s => "'" ++ s ++ "'"
  | .arr xs => "[" ++ pyReprItems xs ++ "]"
  | .obj m => "\x7b" ++ pyReprFields m ++ "\x7d"

def pyReprItems : List Json → String
  | [] => ""
  | [x] => pyRepr x
  | x :: y :: rest => pyRepr x ++ ", " ++ pyReprItems (y :: rest)

def pyReprFields : List (String × Json) → String
  | [] => ""
  | [(k, v)] => "'" ++ k ++ "': " ++ pyRepr v
  | (k, v) :: q :: rest => "'" ++ k ++ "': " ++ pyRepr v ++ ", " ++ pyReprFields (q :: rest)

end

/-- Python str() at f-string top level: like repr but bare for strings. -/
def pyStr : Json → String
  | .str s => s
  | j => pyRepr j

/-- Numeric value of a decimal digit character. -/
def digitVal (c : Char) : Nat := c.toNat - 48

/-- The month field of strptime %m, CPython pattern 1[0-2]|0[1-9]|[1-9]:
ordered alternatives, returning the month value and the unconsumed input. -/
def matchMonth (cs : List Char) : Option (Nat × List Char) :=
  match cs with
  | c1 :: c2 :: rest =>
    if c1 = '1' ∧ (c2 = '0' ∨ c2 = '1' ∨ c2 = '2') then some (10 + digitVal c2, rest)
    else if c1 = '0' ∧ ('1' ≤ c2 ∧ c2 ≤ '9') then some (digitVal c2, rest)
    else if '1' ≤ c1 ∧ c1 ≤ '9' then some (digitVal c1, c2 :: rest)
    else none
  | [c1] => if '1' ≤ c1 ∧ c1 ≤ '9' then some (digitVal c1, []) else none
  | [] => none

/-- The day field of strptime %d, CPython pattern 3[01]|[12]\d|0[1-9]|[1-9]:
ordered alternatives, returning the day value and the unconsumed input. -/
def matchDay (cs : List Char) : Option (Nat × List Char) :=
  match cs with
  | c1 :: c2 :: rest =>
    if c1 = '3' ∧ (c2 = '0' ∨ c2 = '1') then some (30 + digitVal c2, rest)
    else if (c1 = '1' ∨ c1 = '2') ∧ c2.isDigit then some (10 * digitVal c1 + digitVal c2, rest)
    else if c1 = '0' ∧ ('1' ≤ c2 ∧ c2 ≤ '9') then some (digitVal c2, rest)
    else if '1' ≤ c1 ∧ c1 ≤ '9' then some (digitVal c1, c2 :: rest)
    else none
  | [c1] => if '1' ≤ c1 ∧ c1 ≤ '9' then some (digitVal c1, []) else none
  | [] => none

/-- Character-level model of strptime(s, "%Y-%m-%d"): a four-digit year
(CPython %Y pattern \d\d\d\d), a hyphen, the %m field, a hyphen, the %d
field, and no unconverted data remaining. Where a two-character month or
day alternative matched, no shorter alternative followed by a hyphen can
ever rescue the match (the consumed second character is a digit), so the
ordered first-match parse below agrees with the backtracking regex. -/
def parseYMDChars (cs : List Char) : Option (Nat × Nat × Nat) :=
  match cs with
  | y1 :: y2 :: y3 :: y4 :: '-' :: rest =>
    if y1.isDigit ∧ y2.isDigit ∧ y3.isDigit ∧ y4.isDigit then
      match matchMonth rest with
      | some (m, rest2) =>
        match rest2 with
        | '-' :: rest3 =>
          match matchDay rest3 with
          | some (d, rest4) =>
            if rest4 = [] then
              some (digitVal y1 * 1000 + digitVal y2 * 100 + digitVal y3 * 10 + digitVal y4, m, d)
            else none
          | none => none
        | _ => none
      | none => none
    else none
  | _ => none

/-- Gregorian leap-year test. -/
def isLeapYear (y : Nat) : Bool := decide ((y % 4 = 0 ∧ y % 100 ≠ 0) ∨ y % 400 = 0)

/-- Days in a month of the proleptic Gregorian calendar. -/
def daysInMonth (y m : Nat) : Nat :=
  if m = 2 then (if isLeapYear y then 29 else 28)
  else if m = 4 ∨ m = 6 ∨ m = 9 ∨ m = 11 then 30
  else 31

/-- Full model of datetime.strptime(s, "%Y-%m-%d"): the format must match
and the fields must form a representable date (datetime.date rejects
year 0 and days past the month end). Returns the (year, month, day). -/
def parseDateYMD (s : String) : Option (Nat × Nat × Nat) :=
  match parseYMDChars s.data with
  | some (y, m, d) => if 1 ≤ y ∧ d ≤ daysInMonth y m then some (y, m, d) else none
  | none => none

/-- validate_date from handlers.py: strptime the string and surface any
failure as a ValueError naming the offending value. -/
def validate_date (dt_str : String) : Except WError Unit :=
  match parseDateYMD dt_str with
  | some _ => .ok ()
  | none => .error (.valueError ("Invalid date: " ++ dt_str ++ ". Use YYYY-MM-DD."))

/-- Day ordinal of a proleptic Gregorian date (days-from-civil algorithm,
epoch at year 0, March 1). Dates compare and subtract exactly as their
ordinals, matching datetime date ordering and timedelta day arithmetic. -/
def ymdToOrd (y m d : Nat) : Nat :=
  let yy := if m ≤ 2 then y - 1 else y
  let era := yy / 400
  let yoe := yy % 400
  let mp := (m + 9) % 12
  let doy := (153 * mp + 2) / 5 + (d - 1)
  let doe := yoe * 365 + yoe / 4 - yoe / 100 + doy
  era * 146097 + doe

/-- Inverse of ymdToOrd (civil-from-days algorithm). -/
def ordToYmd (z : Nat) : Nat × Nat × Nat :=
  let era := z / 146097
  let doe := z % 146097
  let yoe := (doe - doe / 1460 + doe / 36524 - doe / 146096) / 365
  let doy := doe - (365 * yoe + yoe / 4 - yoe / 100)
  let mp := (5 * doy + 2) / 153
  let d := doy - (153 * mp + 2) / 5 + 1
  let m := if mp < 10 then mp + 3 else mp - 9
  let y := yoe + era * 400 + (if m ≤ 2 then 1 else 0)
  (y, m, d)

/-- Zero-pad a numeral to two digits. -/
def pad2 (n : Nat) : String := if n < 10 then "0" ++ toString n else toString n

/-- Zero-pad a numeral to four digits. -/
def pad4 (n : Nat) : String :=
  if n < 10 then "000" ++ toString n
  else if n < 100 then "00" ++ toString n
  else if n < 1000 then "0" ++ toString n
  else toString n

/-- strftime("%Y-%m-%d") of the date with the given ordinal. -/
def fmtOrd (z : Nat) : String :=
  match ordToYmd z with
  | (y, m, d) => pad4 y ++ "-" ++ pad2 m ++ "-" ++ pad2 d

/-- The moment datetime.now() returns: a day ordinal plus the seconds
elapsed since that midnight (0 ≤ tod < 86400 for a real clock). -/
structure Now where
  day : Nat
  tod : Nat

/-- Seconds-since-epoch of a Now value. -/
def nowSec (t : Now) : Int := (t.day : Int) * 86400 + (t.tod : Int)

/-- Whether the WEATHER_API_KEY configuration value is set and non-empty
(Python truthiness of the os.getenv result). -/
def keyIsSet : Option String → Bool
  | none => false
  | some s => !s.isEmpty

/-- The error detail extracted on a non-200 response:
(data or \x7b\x7d).get("error", \x7b\x7d).get("message", resp.text), with the
AttributeError a non-dict raises on .get surfaced in the error channel. -/
def fetchDetail (data : Option Json) (text : String) : Except WError Json :=
  let base := match data with
    | none => Json.obj []
    | some j => if pyTruthy j then j else Json.obj []
  match base with
  | .obj m =>
    match (m.lookup "error").getD (Json.obj []) with
    | .obj m2 => .ok ((m2.lookup "message").getD (Json.str text))
    | e => .error (.attributeError ("'" ++ pyTypeName e ++ "' object has no attribute 'get'"))
  | b => .error (.attributeError ("'" ++ pyTypeName b ++ "' object has no attribute 'get'"))

/-- Message carried by a Python exception when interpolated into a string. -/
def errText : WError → String
  | .valueError m => m
  | .keyError k => "'" ++ k ++ "'"
  | .typeError m => m
  | .attributeError m => m

/-- fetch from handlers.py. Fails with the configuration ValueError when the
API key is unset, before touching the network; otherwise injects the key
parameter and performs the GET. A transport error becomes "Request error:";
the ValueError raised for a non-200 status inside the outer try block is
itself re-caught by the generic handler, so its final text reads
"Unexpected error: WeatherAPI error: ...". -/
def fetch (apiKey : Option String) (net : Net) (endpoint : String)
    (params : List (String × String)) : Except WError Json :=
  if keyIsSet apiKey then
    let req : ProviderRequest := ⟨endpoint, params ++ [("key", apiKey.getD "")]⟩
    match net req with
    | .requestError e => .error (.valueError ("Request error: " ++ e))
    | .response status data text =>
      if status ≠ 200 then
        match fetchDetail data text with
        | .ok detail => .error (.valueError ("Unexpected error: WeatherAPI error: " ++ pyStr detail))
        | .error err => .error (.valueError ("Unexpected error: " ++ errText err))
      else .ok (data.getD Json.null)
  else .error (.valueError "Weather API key not set.")

/-- Result of one handler invocation: the returned value or raised error,
paired with the requests handed to the fetch collaborator, in order. -/
abbrev HandlerResult := Except WError Json × List ProviderRequest

/-- Delegate one call to fetch and record the invocation. -/
def callFetch (apiKey : Option String) (net : Net) (endpoint : String)
    (params : List (String × String)) : HandlerResult :=
  (fetch apiKey net endpoint params, [⟨endpoint, params⟩])

/-- The ValueError every handler raises on an empty location query. -/
def queryRequiredError : HandlerResult :=
  (.error (.valueError "query with location is required."), [])

/-- get_current_weather from handlers.py. -/
def get_current_weather (apiKey : Option String) (net : Net) (query : String)
    (include_air_quality : Bool) : HandlerResult :=
  if query.isEmpty then queryRequiredError
  else callFetch apiKey net "current.json"
    [("q", query), ("aqi", if include_air_quality then "yes" else "no")]

/-- get_weather_forecast from handlers.py: the days bound enforced is 1-14
while the message still names the older 1-3 bound, as in the source. -/
def get_weather_forecast (apiKey : Option String) (net : Net) (query : String)
    (days : Int) (include_air_quality : Bool) (include_alerts : Bool) : HandlerResult :=
  if query.isEmpty then queryRequiredError
  else if days < 1 ∨ days > 14 then (.error (.valueError "'days' must be between 1 and 3."), [])
  else callFetch apiKey net "forecast.json"
    [("q", query), ("days", toString days),
     ("aqi", if include_air_quality then "yes" else "no"),
     ("alerts", if include_alerts then "yes" else "no")]

/-- get_weather_history from handlers.py. -/
def get_weather_history (apiKey : Option String) (net : Net) (query : String)
    (date : String) : HandlerResult :=
  if query.isEmpty then queryRequiredError
  else match validate_date date with
    | .error e => (.error e, [])
    | .ok () => callFetch apiKey net "history.json" [("q", query), ("dt", date)]

/-- get_weather_airquality from handlers.py. -/
def get_weather_airquality (apiKey : Option String) (net : Net) (query : String) : HandlerResult :=
  if query.isEmpty then queryRequiredError
  else callFetch apiKey net "current.json" [("q", query), ("aqi", "yes")]

/-- get_astronomy_data from handlers.py. -/
def get_astronomy_data (apiKey : Option String) (net : Net) (query : String)
    (date : String) : HandlerResult :=
  if query.isEmpty then queryRequiredError
  else match validate_date date with
    | .error e => (.error e, [])
    | .ok () => callFetch apiKey net "astronomy.json" [("q", query), ("dt", date)]

/-- search_locations from handlers.py: the fetched value is re-wrapped as
the "items" field of a fresh object before being returned. -/
def search_locations (apiKey : Option String) (net : Net) (query : String) : HandlerResult :=
  if query.isEmpty then queryRequiredError
  else
    match fetch apiKey net "search.json" [("q", query)] with
    | .error e => (.error e, [⟨"search.json", [("q", query)]⟩])
    | .ok locations => (.ok (Json.obj [("items", locations)]), [⟨"search.json", [("q", query)]⟩])

/-- get_timezone from handlers.py. -/
def get_timezone (apiKey : Option String) (net : Net) (query : String) : HandlerResult :=
  if query.isEmpty then queryRequiredError
  else callFetch apiKey net "timezone.json" [("q", query)]

/-- get_sport_events from handlers.py. -/
def get_sport_events (apiKey : Option String) (net : Net) (query : String) : HandlerResult :=
  if query.isEmpty then queryRequiredError
  else callFetch apiKey net "sports.json" [("q", query)]

/-- get_marine_weather from handlers.py: the tide parameter appears only
when requested, never as "no". -/
def get_marine_weather (apiKey : Option String) (net : Net) (query : String)
    (with_tide : Bool) : HandlerResult :=
  if query.isEmpty then queryRequiredError
  else callFetch apiKey net "marine.json"
    (if with_tide then [("q", query), ("tide", "yes")] else [("q", query)])

/-- get_future_weather from handlers.py. After validate_date, the target
midnight is re-parsed and days_diff = (target_dt - datetime.now()).days is
the floor of the signed second difference over 86400 (timedelta
normalization), then checked against the inclusive 14..300 window. -/
def get_future_weather (apiKey : Option String) (net : Net) (t : Now) (query : String)
    (date : String) : HandlerResult :=
  if query.isEmpty then queryRequiredError
  else match parseDateYMD date with
    | none => (.error (.valueError ("Invalid date: " ++ date ++ ". Use YYYY-MM-DD.")), [])
    | some (y, m, d) =>
      let days_diff : Int := Int.fdiv ((ymdToOrd y m d : Int) * 86400 - nowSec t) 86400
      if days_diff < 14 then (.error (.valueError "date must be at least 14 days in the future."), [])
      else if days_diff > 300 then
        (.error (.valueError "date cannot be more than 300 days in the future."), [])
      else callFetch apiKey net "future.json" [("q", query), ("dt", date)]

/-- The per-day collection loop of get_historical_weather: starting at day
ordinal d, for n days, fetch history.json for the formatted date, keep the
successes in order, swallow per-day failures, and record every collaborator
invocation. -/
def collectRange (apiKey : Option String) (net : Net) (query : String) :
    Nat → Nat → List Json × List ProviderRequest
  | 0, _ => ([], [])
  | n + 1, d =>
    let ps := [("q", query), ("dt", fmtOrd d)]
    let rest := collectRange apiKey net query n (d + 1)
    match fetch apiKey net "history.json" ps with
    | .ok j => (j :: rest.1, ⟨"history.json", ps⟩ :: rest.2)
    | .error _ => (rest.1, ⟨"history.json", ps⟩ :: rest.2)

/-- One step of the merge loop body: if "forecast" in data and "forecastday"
in data["forecast"], extend the accumulated list with
data["forecast"]["forecastday"], with Python membership, subscript and
extend semantics. -/
def extendForecast (acc : List Json) (data : Json) : Except WError (List Json) :=
  match pyContains "forecast" data with
  | .error e => .error e
  | .ok false => .ok acc
  | .ok true =>
    match pyIndex data "forecast" with
    | .error e => .error e
    | .ok f =>
      match pyContains "forecastday" f with
      | .error e => .error e
      | .ok false => .ok acc
      | .ok true =>
        match pyIndex f "forecastday" with
        | .error e => .error e
        | .ok fd =>
          match pyElems fd with
          | .error e => .error e
          | .ok items => .ok (acc ++ items)

/-- The merge loop of get_historical_weather over every collected response. -/
def foldForecast : List Json → List Json → Except WError (List Json)
  | [], acc => .ok acc
  | data :: rest, acc =>
    match extendForecast acc data with
    | .ok acc2 => foldForecast rest acc2
    | .error e => .error e

/-- Lines 136-160 of handlers.py: run the per-day loop over the inclusive
ordinal range, fail when nothing was collected, otherwise read "location"
from the first success unguarded and concatenate the forecastday entries. -/
def aggregateHistory (apiKey : Option String) (net : Net) (query : String)
    (startOrd endOrd : Nat) : HandlerResult :=
  let c := collectRange apiKey net query (endOrd + 1 - startOrd) startOrd
  match c.1 with
  | [] => (.error (.valueError "No historical data found for the specified date range."), c.2)
  | first :: _ =>
    match pyIndex first "location" with
    | .error e => (.error e, c.2)
    | .ok loc =>
      match foldForecast c.1 [] with
      | .error e => (.error e, c.2)
      | .ok fds =>
        (.ok (Json.obj [("location", loc),
              ("forecast", Json.obj [("forecastday", Json.arr fds)])]), c.2)

/-- get_historical_weather from handlers.py. The source calls validate_date
and then re-parses with the same strptime format; the two parses agree, so
the model parses once and raises the validate_date message on failure, the
start date first. Range checks compare midnight datetimes against the full
datetime.now() value in seconds. -/
def get_historical_weather (apiKey : Option String) (net : Net) (t : Now)
    (query start_date end_date : String) : HandlerResult :=
  if query.isEmpty then queryRequiredError
  else
    match parseDateYMD start_date, parseDateYMD end_date with
    | none, _ => (.error (.valueError ("Invalid date: " ++ start_date ++ ". Use YYYY-MM-DD.")), [])
    | some _, none => (.error (.valueError ("Invalid date: " ++ end_date ++ ". Use YYYY-MM-DD.")), [])
    | some (ys, ms, ds), some (ye, me, de) =>
      if ymdToOrd ys ms ds > ymdToOrd ye me de then
        (.error (.valueError "start_date must be before end_date."), [])
      else if (ymdToOrd ys ms ds : Int) * 86400 < nowSec t - 365 * 86400 then
        (.error (.valueError "start_date cannot be more than 1 year ago."), [])
      else if (ymdToOrd ye me de : Int) * 86400 ≥ nowSec t then
        (.error (.valueError "end_date must be in the past."), [])
      else aggregateHistory apiKey net query (ymdToOrd ys ms ds) (ymdToOrd ye me de)

/-- Follows the wording of spec section 4.1, for comparison with
validate_date: a four-digit year, zero-padded two-digit month, zero-padded
two-digit day, hyphen-separated, representing a real calendar date. -/
def specStrictYMD (s : String) : Bool :=
  match s.data with
  | [y1, y2, y3, y4, h1, m1, m2, h2, d1, d2] =>
    y1.isDigit && y2.isDigit && y3.isDigit && y4.isDigit && h1 == '-' && h2 == '-' &&
    m1.isDigit && m2.isDigit && d1.isDigit && d2.isDigit &&
    (let y := digitVal y1 * 1000 + digitVal y2 * 100 + digitVal y3 * 10 + digitVal y4
     let m := digitVal m1 * 10 + digitVal m2
     let d := digitVal d1 * 10 + digitVal d2
     decide (1 ≤ y) && decide (1 ≤ m) && decide (m ≤ 12) && decide (1 ≤ d) &&
       decide (d ≤ daysInMonth y m))
  | _ => false

/-- Year value of four digit characters. -/
def yearVal (y1 y2 y3 y4 : Char) : Nat :=
  digitVal y1 * 1000 + digitVal y2 * 100 + digitVal y3 * 10 + digitVal y4

/-- Follows the amended wording of the C5 claim: the candidate year, month
and day values form a real proleptic Gregorian calendar date. -/
def specDateOK (y m d : Nat) : Bool :=
  decide (1 ≤ y) && decide (1 ≤ m) && decide (m ≤ 12) && decide (1 ≤ d) &&
    decide (d ≤ daysInMonth y m)

/-- Follows the amended wording of the C5 claim, on the character list of a
date string: a four-digit year, a one-or-two-digit month and a
one-or-two-digit day, hyphen-separated, whose values form a real calendar
date. Defined independently of the strptime model, for comparison. -/
def specRelaxedChars : List Char → Bool
  | [y1, y2, y3, y4, '-', m1, '-', d1] =>
    y1.isDigit && y2.isDigit && y3.isDigit && y4.isDigit && m1.isDigit && d1.isDigit &&
    specDateOK (yearVal y1 y2 y3 y4) (digitVal m1) (digitVal d1)
  | [y1, y2, y3, y4, '-', m1, m2, '-', d1] =>
    y1.isDigit && y2.isDigit && y3.isDigit && y4.isDigit && m1.isDigit && m2.isDigit &&
    d1.isDigit &&
    specDateOK (yearVal y1 y2 y3 y4) (10 * digitVal m1 + digitVal m2) (digitVal d1)
  | [y1, y2, y3, y4, '-', m1, '-', d1, d2] =>
    y1.isDigit && y2.isDigit && y3.isDigit && y4.isDigit && m1.isDigit && d1.isDigit &&
    d2.isDigit &&
    specDateOK (yearVal y1 y2 y3 y4) (digitVal m1) (10 * digitVal d1 + digitVal d2)
  | [y1, y2, y3, y4, '-', m1, m2, '-', d1, d2] =>
    y1.isDigit && y2.isDigit && y3.isDigit && y4.isDigit && m1.isDigit && m2.isDigit &&
    d1.isDigit && d2.isDigit &&
    specDateOK (yearVal y1 y2 y3 y4) (10 * digitVal m1 + digitVal m2)
      (10 * digitVal d1 + digitVal d2)
  | _ => false

/-- The format the amended C5 claim describes, on strings. -/
def specRelaxedYMD (s : String) : Bool := specRelaxedChars s.data

/-- Entries a response contributes to the merged forecastday sequence: the
content of its forecast.forecastday list, empty when the response lacks
that shape. -/
def forecastdayEntries (j : Json) : List Json :=
  match j with
  | .obj m =>
    match m.lookup "forecast" with
    | some (.obj m2) =>
      match m2.lookup "forecastday" with
      | some (.arr xs) => xs
      | _ => []
    | _ => []
  | _ => []

/-- A response shape on which the merge loop body runs without a Python
runtime error: a dict whose forecast field, when present, is a dict whose
forecastday field, when present, is a list. -/
def shapeOK (j : Json) : Bool :=
  match j with
  | .obj m =>
    match m.lookup "forecast" with
    | none => true
    | some (.obj m2) =>
      match m2.lookup "forecastday" with
      | none => true
      | some (.arr _) => true
      | some _ => false
    | some _ => false
  | _ => false

/-- A set API key, for concrete instantiations. -/
def goodKey : Option String := some "k"

/-- A sample provider response with location and one forecast day. -/
def sampleResp : Json :=
  Json.obj [("location", Json.str "CityA"),
            ("forecast", Json.obj [("forecastday", Json.arr [Json.str "d1"])])]

/-- A second sample response with two forecast days. -/
def respB : Json :=
  Json.obj [("location", Json.str "CityB"),
            ("forecast", Json.obj [("forecastday", Json.arr [Json.str "b1", Json.str "b2"])])]

/-- A collaborator that answers every request with status 200 and a body. -/
def okNet (body : Json) : Net := fun _ => .response 200 (some body) ""

/-- A collaborator that answers every request with a 500 and no JSON body. -/
def failNet : Net := fun _ => .response 500 none "boom"

/-- A collaborator keyed on the dt parameter: succeeds on 2025-06-10 and
2025-06-12, fails on the middle day 2025-06-11. -/
def histNet : Net := fun req =>
  if req.params.lookup "dt" = some "2025-06-10" then .response 200 (some sampleResp) ""
  else if req.params.lookup "dt" = some "2025-06-11" then .response 500 none "boom"
  else if req.params.lookup "dt" = some "2025-06-12" then .response 200 (some respB) ""
  else .response 404 none "nf"

/-- A collaborator whose successful responses lack the location key. -/
def noLocNet : Net :=
  fun _ => .response 200 (some (Json.obj [("forecast", Json.obj [("forecastday", Json.arr [])])])) ""

/-- A concrete clock: 2025-06-20 at midnight. -/
def wTime : Now := ⟨ymdToOrd 2025 6 20, 0⟩

/-- A concrete clock: 2025-06-15 at 01:00, a typical non-midnight call time. -/
def wTimeHour : Now := ⟨ymdToOrd 2025 6 15, 3600⟩

/-- A concrete clock: 2025-01-01 at 01:00. -/
def wTimeJan : Now := ⟨ymdToOrd 2025 1 1, 3600⟩

/-- Whether an error is a Python ValueError (the kind validation and the
empty-aggregation failure raise, as opposed to KeyError or TypeError). -/
def isValueError : WError → Bool
  | .valueError _ => true
  | _ => false

theorem fdiv_86400_eq (a k : Int) (h1 : 86400 * k ≤ a) (h2 : a < 86400 * (k + 1)) :
    Int.fdiv a 86400 = k := by
  rw [Int.fdiv_eq_ediv a (by norm_num)]
  omega

/-- The fetch made by the collection loop for the day with ordinal d. -/
def dayFetch (apiKey : Option String) (net : Net) (q : String) (d : Nat) : Except WError Json :=
  fetch apiKey net "history.json" [("q", q), ("dt", fmtOrd d)]

/-- The request the collection loop hands to fetch for day ordinal d. -/
def dayReq (q : String) (d : Nat) : ProviderRequest :=
  ⟨"history.json", [("q", q), ("dt", fmtOrd d)]⟩

theorem collectRange_spec (apiKey : Option String) (net : Net) (q : String) (n d : Nat) :
    collectRange apiKey net q n d
      = (((List.range n).map (fun k => dayFetch apiKey net q (d + k))).filterMap Except.toOption,
         (List.range n).map (fun k => dayReq q (d + k))) := by
  induction n generalizing d with
  | zero => simp only [List.range_zero, List.map_nil, List.filterMap_nil]; rfl
  | succ m ih =>
    rw [collectRange, ih (d + 1), List.range_succ_eq_map]
    simp only [List.map_cons, List.map_map, List.filterMap_cons, Nat.add_zero,
      Function.comp_def, Nat.succ_eq_add_one]
    have h1 : (fun k => dayFetch apiKey net q (d + (k + 1)))
        = fun k => dayFetch apiKey net q (d + 1 + k) := by
      funext k; congr 1; omega
    have h2 : (fun k => dayReq q (d + (k + 1))) = fun k => dayReq q (d + 1 + k) := by
      funext k; congr 1; omega
    rw [h1, h2]
    unfold dayFetch dayReq
    cases hf : fetch apiKey net "history.json" [("q", q), ("dt", fmtOrd d)] with
    | ok j => simp [hf, Except.toOption]
    | error e => simp [hf, Except.toOption]

theorem toOption_eq_none_iff (x : Except WError Json) :
    x.toOption = none ↔ ∃ e, x = .error e := by
  cases x <;> simp [Except.toOption]

theorem collectRange_fst_nil_iff (apiKey : Option String) (net : Net) (q : String) (n d : Nat) :
    (collectRange apiKey net q n d).1 = []
      ↔ ∀ k, k < n → ∃ e, dayFetch apiKey net q (d + k) = .error e := by
  rw [collectRange_spec]
  simp only [List.filterMap_eq_nil_iff]
  constructor
  · intro h k hk
    exact (toOption_eq_none_iff _).mp (h _ (List.mem_map_of_mem _ (List.mem_range.mpr hk)))
  · intro h a ha
    rcases List.mem_map.mp ha with ⟨k, hk, rfl⟩
    exact (toOption_eq_none_iff _).mpr (h k (List.mem_range.mp hk))

theorem pyContains_error_not_value (k : String) (j : Json) (e : WError)
    (h : pyContains k j = .error e) : isValueError e = false := by
  cases j <;> simp [pyContains] at h <;> simp [← h, isValueError]

theorem pyIndex_error_not_value (j : Json) (k : String) (e : WError)
    (h : pyIndex j k = .error e) : isValueError e = false := by
  cases j with
  | obj m => cases hl : m.lookup k <;> simp [pyIndex, hl] at h <;> simp [← h, isValueError]
  | null => simp [pyIndex] at h; simp [← h, isValueError]
  | bool b => simp [pyIndex] at h; simp [← h, isValueError]
  | num n => simp [pyIndex] at h; simp [← h, isValueError]
  | str s => simp [pyIndex] at h; simp [← h, isValueError]
  | arr xs => simp [pyIndex] at h; simp [← h, isValueError]

theorem pyElems_error_not_value (j : Json) (e : WError)
    (h : pyElems j = .error e) : isValueError e = false := by
  cases j <;> simp [pyElems] at h <;> simp [← h, isValueError]

theorem extendForecast_error_not_value (acc : List Json) (j : Json) (e : WError)
    (h : extendForecast acc j = .error e) : isValueError e = false := by
  unfold extendForecast at h
  cases h1 : pyContains "forecast" j with
  | error e1 =>
    rw [h1] at h
    simp at h
    exact h ▸ pyContains_error_not_value _ _ _ h1
  | ok b1 =>
    rw [h1] at h
    cases b1 with
    | false => simp at h
    | true =>
      simp only at h
      cases h2 : pyIndex j "forecast" with
      | error e2 =>
        rw [h2] at h
        simp at h
        exact h ▸ pyIndex_error_not_value _ _ _ h2
      | ok f =>
        rw [h2] at h
        simp only at h
        cases h3 : pyContains "forecastday" f with
        | error e3 =>
          rw [h3] at h
          simp at h
          exact h ▸ pyContains_error_not_value _ _ _ h3
        | ok b3 =>
          rw [h3] at h
          cases b3 with
          | false => simp at h
          | true =>
            simp only at h
            cases h4 : pyIndex f "forecastday" with
            | error e4 =>
              rw [h4] at h
              simp at h
              exact h ▸ pyIndex_error_not_value _ _ _ h4
            | ok fd =>
              rw [h4] at h
              simp only at h
              cases h5 : pyElems fd with
              | error e5 =>
                rw [h5] at h
                simp at h
                exact h ▸ pyElems_error_not_value _ _ h5
              | ok items =>
                rw [h5] at h
                simp at h

theorem foldForecast_error_not_value (l : List Json) (acc : List Json) (e : WError)
    (h : foldForecast l acc = .error e) : isValueError e = false := by
  induction l generalizing acc with
  | nil => simp [foldForecast] at h
  | cons x xs ih =>
    unfold foldForecast at h
    cases hx : extendForecast acc x with
    | error e1 =>
      rw [hx] at h
      simp at h
      exact h ▸ extendForecast_error_not_value _ _ _ hx
    | ok acc2 =>
      rw [hx] at h
      exact ih acc2 h

theorem extendForecast_shapeOK (acc : List Json) (j : Json) (h : shapeOK j = true) :
    extendForecast acc j = .ok (acc ++ forecastdayEntries j) := by
  cases j with
  | obj m =>
    simp only [shapeOK] at h
    simp only [extendForecast, forecastdayEntries, pyContains, pyIndex, pyElems]
    cases hf : m.lookup "forecast" with
    | none => simp [hf]
    | some v =>
      simp only [hf] at h
      cases v with
      | obj m2 =>
        cases hd : m2.lookup "forecastday" with
        | none => simp [hf, hd]
        | some w =>
          simp only [hd] at h
          cases w with
          | arr xs => simp [hf, hd]
          | null => simp at h
          | bool b => simp at h
          | num n => simp at h
          | str s => simp at h
          | obj m3 => simp at h
      | null => simp at h
      | bool b => simp at h
      | num n => simp at h
      | str s => simp at h
      | arr xs => simp at h
  | null => simp [shapeOK] at h
  | bool b => simp [shapeOK] at h
  | num n => simp [shapeOK] at h
  | str s => simp [shapeOK] at h
  | arr xs => simp [shapeOK] at h

theorem foldForecast_shapeOK (l : List Json) (acc : List Json)
    (h : ∀ j ∈ l, shapeOK j = true) :
    foldForecast l acc = .ok (acc ++ (l.map forecastdayEntries).flatten) := by
  induction l generalizing acc with
  | nil => simp [foldForecast]
  | cons x xs ih =>
    have hx := extendForecast_shapeOK acc x (h x (List.mem_cons_self x xs))
    simp only [foldForecast, hx]
    rw [ih (acc ++ forecastdayEntries x) (fun j hj => h j (List.mem_cons_of_mem x hj))]
    simp

theorem aggregateHistory_empty (apiKey : Option String) (net : Net) (q : String)
    (s e : Nat) (h : (collectRange apiKey net q (e + 1 - s) s).1 = []) :
    aggregateHistory apiKey net q s e
      = (.error (.valueError "No historical data found for the specified date range."),
         (collectRange apiKey net q (e + 1 - s) s).2) := by
  simp only [aggregateHistory, h]

theorem aggregateHistory_fst_not_noData (apiKey : Option String) (net : Net) (q : String)
    (s e : Nat) (h : (collectRange apiKey net q (e + 1 - s) s).1 ≠ []) (msg : String) :
    (aggregateHistory apiKey net q s e).1 ≠ .error (.valueError msg) := by
  simp only [aggregateHistory]
  cases hc : (collectRange apiKey net q (e + 1 - s) s).1 with
  | nil => exact absurd hc h
  | cons first rest =>
    simp only
    cases hl : pyIndex first "location" with
    | error e1 =>
      have hnv := pyIndex_error_not_value _ _ _ hl
      simp only
      intro heq
      injection heq with heq2
      rw [heq2] at hnv
      simp [isValueError] at hnv
    | ok loc =>
      cases hfold : foldForecast (first :: rest) [] with
      | error e2 =>
        have hnv := foldForecast_error_not_value _ _ _ hfold
        simp only
        intro heq
        injection heq with heq2
        rw [heq2] at hnv
        simp [isValueError] at hnv
      | ok fds => simp

theorem get_historical_weather_validated (apiKey : Option String) (net : Net) (t : Now)
    (q ss se : String) (ys ms ds ye me de : Nat)
    (hq : q.isEmpty = false)
    (hs : parseDateYMD ss = some (ys, ms, ds))
    (he : parseDateYMD se = some (ye, me, de))
    (hord : ymdToOrd ys ms ds ≤ ymdToOrd ye me de)
    (hstart : ¬ ((ymdToOrd ys ms ds : Int) * 86400 < nowSec t - 365 * 86400))
    (hend : ¬ ((ymdToOrd ye me de : Int) * 86400 ≥ nowSec t)) :
    get_historical_weather apiKey net t q ss se
      = aggregateHistory apiKey net q (ymdToOrd ys ms ds) (ymdToOrd ye me de) := by
  have h1 : ¬ (ymdToOrd ys ms ds > ymdToOrd ye me de) := by omega
  unfold get_historical_weather
  simp [hq, hs, he, h1, hstart, hend]
  intro hcon
  exfalso
  omega

theorem char_eq_iff_toNat (a b : Char) : a = b ↔ a.toNat = b.toNat :=
  ⟨fun h => h ▸ rfl, fun h => Char.ext (UInt32.ext h)⟩

theorem char_le_iff_toNat (a b : Char) : a ≤ b ↔ a.toNat ≤ b.toNat := by
  rw [Char.le_def, UInt32.le_def]
  exact Iff.rfl

theorem toNat_hyphen : ('-' : Char).toNat = 45 := rfl

theorem toNat_d0 : ('0' : Char).toNat = 48 := rfl

theorem toNat_d1 : ('1' : Char).toNat = 49 := rfl

theorem toNat_d2 : ('2' : Char).toNat = 50 := rfl

theorem toNat_d3 : ('3' : Char).toNat = 51 := rfl

theorem toNat_d9 : ('9' : Char).toNat = 57 := rfl

theorem isDigit_iff_toNat (c : Char) : c.isDigit = true ↔ 48 ≤ c.toNat ∧ c.toNat ≤ 57 := by
  unfold Char.isDigit
  rw [Bool.and_eq_true, decide_eq_true_eq, decide_eq_true_eq]
  exact Iff.rfl

theorem digitVal_eq (c : Char) : digitVal c = c.toNat - 48 := rfl

theorem daysInMonth_le_31 (y m : Nat) : daysInMonth y m ≤ 31 := by
  unfold daysInMonth
  split
  · split <;> omega
  · split <;> omega

theorem matchMonth_one (c1 : Char) (tail : List Char)
    (h1 : c1.isDigit = true) (hv : 1 ≤ digitVal c1) :
    matchMonth (c1 :: '-' :: tail) = some (digitVal c1, '-' :: tail) := by
  obtain ⟨hb1, hb2⟩ := (isDigit_iff_toNat c1).mp h1
  rw [digitVal_eq] at hv
  have hn1 : ¬(c1 = '1' ∧ (('-' : Char) = '0' ∨ ('-' : Char) = '1' ∨ ('-' : Char) = '2')) := by
    rintro ⟨-, hc | hc | hc⟩ <;> exact absurd hc (by decide)
  have hn2 : ¬(c1 = '0' ∧ (('1' : Char) ≤ '-' ∧ ('-' : Char) ≤ '9')) := by
    rintro ⟨-, hle, -⟩
    exact absurd hle (by decide)
  have hp3 : ('1' : Char) ≤ c1 ∧ c1 ≤ '9' :=
    ⟨by rw [char_le_iff_toNat, toNat_d1]; omega, by rw [char_le_iff_toNat, toNat_d9]; omega⟩
  simp only [matchMonth]
  rw [if_neg hn1, if_neg hn2, if_pos hp3]

theorem matchMonth_two (c1 c2 : Char) (tail : List Char)
    (h1 : c1.isDigit = true) (h2 : c2.isDigit = true)
    (hlo : 1 ≤ 10 * digitVal c1 + digitVal c2)
    (hhi : 10 * digitVal c1 + digitVal c2 ≤ 12) :
    matchMonth (c1 :: c2 :: tail) = some (10 * digitVal c1 + digitVal c2, tail) := by
  obtain ⟨hb1, hb2⟩ := (isDigit_iff_toNat c1).mp h1
  obtain ⟨hb3, hb4⟩ := (isDigit_iff_toNat c2).mp h2
  rw [digitVal_eq, digitVal_eq] at hlo hhi
  simp only [matchMonth]
  rcases (by omega : c1.toNat = 48 ∨ c1.toNat = 49) with hc | hc
  · have hn1 : ¬(c1 = '1' ∧ (c2 = '0' ∨ c2 = '1' ∨ c2 = '2')) := by
      rintro ⟨h, -⟩
      rw [char_eq_iff_toNat, toNat_d1] at h
      omega
    have hp2 : c1 = '0' ∧ (('1' : Char) ≤ c2 ∧ c2 ≤ '9') :=
      ⟨by rw [char_eq_iff_toNat, toNat_d0]; omega,
       by rw [char_le_iff_toNat, toNat_d1]; omega,
       by rw [char_le_iff_toNat, toNat_d9]; omega⟩
    rw [if_neg hn1, if_pos hp2]
    have hval : 10 * digitVal c1 + digitVal c2 = digitVal c2 := by
      rw [digitVal_eq, digitVal_eq]; omega
    rw [hval]
  · have hp1 : c1 = '1' ∧ (c2 = '0' ∨ c2 = '1' ∨ c2 = '2') := by
      refine ⟨by rw [char_eq_iff_toNat, toNat_d1]; omega, ?_⟩
      rcases (by omega : c2.toNat = 48 ∨ c2.toNat = 49 ∨ c2.toNat = 50) with h | h | h
      · exact Or.inl (by rw [char_eq_iff_toNat, toNat_d0]; omega)
      · exact Or.inr (Or.inl (by rw [char_eq_iff_toNat, toNat_d1]; omega))
      · exact Or.inr (Or.inr (by rw [char_eq_iff_toNat, toNat_d2]; omega))
    rw [if_pos hp1]
    have hval : 10 * digitVal c1 + digitVal c2 = 10 + digitVal c2 := by
      rw [digitVal_eq, digitVal_eq]; omega
    rw [hval]

theorem matchDay_single (c1 : Char) (h1 : c1.isDigit = true) (hv : 1 ≤ digitVal c1) :
    matchDay [c1] = some (digitVal c1, []) := by
  obtain ⟨hb1, hb2⟩ := (isDigit_iff_toNat c1).mp h1
  rw [digitVal_eq] at hv
  simp only [matchDay]
  rw [if_pos]
  exact ⟨by rw [char_le_iff_toNat, toNat_d1]; omega, by rw [char_le_iff_toNat, toNat_d9]; omega⟩

theorem matchDay_double (c1 c2 : Char)
    (h1 : c1.isDigit = true) (h2 : c2.isDigit = true)
    (hlo : 1 ≤ 10 * digitVal c1 + digitVal c2)
    (hhi : 10 * digitVal c1 + digitVal c2 ≤ 31) :
    matchDay [c1, c2] = some (10 * digitVal c1 + digitVal c2, []) := by
  obtain ⟨hb1, hb2⟩ := (isDigit_iff_toNat c1).mp h1
  obtain ⟨hb3, hb4⟩ := (isDigit_iff_toNat c2).mp h2
  rw [digitVal_eq, digitVal_eq] at hlo hhi
  simp only [matchDay]
  rcases (by omega : c1.toNat = 48 ∨ c1.toNat = 49 ∨ c1.toNat = 50 ∨ c1.toNat = 51)
    with hc | hc | hc | hc
  · have hn1 : ¬(c1 = '3' ∧ (c2 = '0' ∨ c2 = '1')) := by
      rintro ⟨h, -⟩
      rw [char_eq_iff_toNat, toNat_d3] at h
      omega
    have hn2 : ¬((c1 = '1' ∨ c1 = '2') ∧ c2.isDigit = true) := by
      rintro ⟨h | h, -⟩
      · rw [char_eq_iff_toNat, toNat_d1] at h; omega
      · rw [char_eq_iff_toNat, toNat_d2] at h; omega
    have hp3 : c1 = '0' ∧ (('1' : Char) ≤ c2 ∧ c2 ≤ '9') :=
      ⟨by rw [char_eq_iff_toNat, toNat_d0]; omega,
       by rw [char_le_iff_toNat, toNat_d1]; omega,
       by rw [char_le_iff_toNat, toNat_d9]; omega⟩
    rw [if_neg hn1, if_neg hn2, if_pos hp3]
    have hval : 10 * digitVal c1 + digitVal c2 = digitVal c2 := by
      rw [digitVal_eq, digitVal_eq]; omega
    rw [hval]
  · have hn1 : ¬(c1 = '3' ∧ (c2 = '0' ∨ c2 = '1')) := by
      rintro ⟨h, -⟩
      rw [char_eq_iff_toNat, toNat_d3] at h
      omega
    have hp2 : (c1 = '1' ∨ c1 = '2') ∧ c2.isDigit = true :=
      ⟨Or.inl (by rw [char_eq_iff_toNat, toNat_d1]; omega), h2⟩
    rw [if_neg hn1, if_pos hp2]
  · have hn1 : ¬(c1 = '3' ∧ (c2 = '0' ∨ c2 = '1')) := by
      rintro ⟨h, -⟩
      rw [char_eq_iff_toNat, toNat_d3] at h
      omega
    have hp2 : (c1 = '1' ∨ c1 = '2') ∧ c2.isDigit = true :=
      ⟨Or.inr (by rw [char_eq_iff_toNat, toNat_d2]; omega), h2⟩
    rw [if_neg hn1, if_pos hp2]
  · have hp1 : c1 = '3' ∧ (c2 = '0' ∨ c2 = '1') := by
      refine ⟨by rw [char_eq_iff_toNat, toNat_d3]; omega, ?_⟩
      rcases (by omega : c2.toNat = 48 ∨ c2.toNat = 49) with h | h
      · exact Or.inl (by rw [char_eq_iff_toNat, toNat_d0]; omega)
      · exact Or.inr (by rw [char_eq_iff_toNat, toNat_d1]; omega)
    rw [if_pos hp1]
    have hval : 10 * digitVal c1 + digitVal c2 = 30 + digitVal c2 := by
      rw [digitVal_eq, digitVal_eq]; omega
    rw [hval]

theorem matchMonth_inv (cs rest : List Char) (m : Nat)
    (h : matchMonth cs = some (m, rest)) :
    (∃ c1 c2, cs = c1 :: c2 :: rest ∧ c1.isDigit = true ∧ c2.isDigit = true ∧
       m = 10 * digitVal c1 + digitVal c2 ∧ 1 ≤ m ∧ m ≤ 12)
    ∨ (∃ c1, cs = c1 :: rest ∧ c1.isDigit = true ∧ m = digitVal c1 ∧ 1 ≤ m ∧ m ≤ 9) := by
  match cs with
  | [] => simp [matchMonth] at h
  | [c1] =>
    simp only [matchMonth] at h
    split at h
    case isTrue hcond =>
      obtain ⟨hl, hr⟩ := hcond
      rw [char_le_iff_toNat, toNat_d1] at hl
      rw [char_le_iff_toNat, toNat_d9] at hr
      simp only [Option.some.injEq, Prod.mk.injEq] at h
      obtain ⟨rfl, rfl⟩ := h
      right
      exact ⟨c1, rfl, (isDigit_iff_toNat c1).mpr ⟨by omega, by omega⟩, rfl,
        by rw [digitVal_eq]; omega, by rw [digitVal_eq]; omega⟩
    case isFalse => simp at h
  | c1 :: c2 :: tail =>
    simp only [matchMonth] at h
    split at h
    case isTrue hcond =>
      obtain ⟨he1, he2⟩ := hcond
      subst he1
      simp only [Option.some.injEq, Prod.mk.injEq] at h
      obtain ⟨rfl, rfl⟩ := h
      left
      rcases he2 with rfl | rfl | rfl
      · exact ⟨'1', '0', rfl, by decide, by decide, by decide, by decide, by decide⟩
      · exact ⟨'1', '1', rfl, by decide, by decide, by decide, by decide, by decide⟩
      · exact ⟨'1', '2', rfl, by decide, by decide, by decide, by decide, by decide⟩
    case isFalse hn1 =>
      split at h
      case isTrue hcond =>
        obtain ⟨he1, hl, hr⟩ := hcond
        subst he1
        rw [char_le_iff_toNat, toNat_d1] at hl
        rw [char_le_iff_toNat, toNat_d9] at hr
        simp only [Option.some.injEq, Prod.mk.injEq] at h
        obtain ⟨rfl, rfl⟩ := h
        left
        refine ⟨'0', c2, rfl, by decide, (isDigit_iff_toNat c2).mpr ⟨by omega, by omega⟩,
          ?_, ?_, ?_⟩
        · rw [digitVal_eq, digitVal_eq, toNat_d0]
          omega
        · rw [digitVal_eq]; omega
        · rw [digitVal_eq]; omega
      case isFalse hn2 =>
        split at h
        case isTrue hcond =>
          obtain ⟨hl, hr⟩ := hcond
          rw [char_le_iff_toNat, toNat_d1] at hl
          rw [char_le_iff_toNat, toNat_d9] at hr
          simp only [Option.some.injEq, Prod.mk.injEq] at h
          obtain ⟨rfl, rfl⟩ := h
          right
          exact ⟨c1, rfl, (isDigit_iff_toNat c1).mpr ⟨by omega, by omega⟩, rfl,
            by rw [digitVal_eq]; omega, by rw [digitVal_eq]; omega⟩
        case isFalse => simp at h

theorem matchDay_inv (cs rest : List Char) (d : Nat)
    (h : matchDay cs = some (d, rest)) :
    (∃ c1 c2, cs = c1 :: c2 :: rest ∧ c1.isDigit = true ∧ c2.isDigit = true ∧
       d = 10 * digitVal c1 + digitVal c2 ∧ 1 ≤ d ∧ d ≤ 31)
    ∨ (∃ c1, cs = c1 :: rest ∧ c1.isDigit = true ∧ d = digitVal c1 ∧ 1 ≤ d ∧ d ≤ 9) := by
  match cs with
  | [] => simp [matchDay] at h
  | [c1] =>
    simp only [matchDay] at h
    split at h
    case isTrue hcond =>
      obtain ⟨hl, hr⟩ := hcond
      rw [char_le_iff_toNat, toNat_d1] at hl
      rw [char_le_iff_toNat, toNat_d9] at hr
      simp only [Option.some.injEq, Prod.mk.injEq] at h
      obtain ⟨rfl, rfl⟩ := h
      right
      exact ⟨c1, rfl, (isDigit_iff_toNat c1).mpr ⟨by omega, by omega⟩, rfl,
        by rw [digitVal_eq]; omega, by rw [digitVal_eq]; omega⟩
    case isFalse => simp at h
  | c1 :: c2 :: tail =>
    simp only [matchDay] at h
    split at h
    case isTrue hcond =>
      obtain ⟨he1, he2⟩ := hcond
      subst he1
      simp only [Option.some.injEq, Prod.mk.injEq] at h
      obtain ⟨rfl, rfl⟩ := h
      left
      rcases he2 with rfl | rfl
      · exact ⟨'3', '0', rfl, by decide, by decide, by decide, by decide, by decide⟩
      · exact ⟨'3', '1', rfl, by decide, by decide, by decide, by decide, by decide⟩
    case isFalse hn1 =>
      split at h
      case isTrue hcond =>
        obtain ⟨he1, hd2⟩ := hcond
        obtain ⟨hb3, hb4⟩ := (isDigit_iff_toNat c2).mp hd2
        simp only [Option.some.injEq, Prod.mk.injEq] at h
        obtain ⟨rfl, rfl⟩ := h
        left
        rcases he1 with rfl | rfl
        · refine ⟨'1', c2, rfl, by decide, hd2, rfl, ?_, ?_⟩
          · rw [digitVal_eq, digitVal_eq, toNat_d1]; omega
          · rw [digitVal_eq, digitVal_eq, toNat_d1]; omega
        · refine ⟨'2', c2, rfl, by decide, hd2, rfl, ?_, ?_⟩
          · rw [digitVal_eq, digitVal_eq, toNat_d2]; omega
          · rw [digitVal_eq, digitVal_eq, toNat_d2]; omega
      case isFalse hn2 =>
        split at h
        case isTrue hcond =>
          obtain ⟨he1, hl, hr⟩ := hcond
          subst he1
          rw [char_le_iff_toNat, toNat_d1] at hl
          rw [char_le_iff_toNat, toNat_d9] at hr
          simp only [Option.some.injEq, Prod.mk.injEq] at h
          obtain ⟨rfl, rfl⟩ := h
          left
          refine ⟨'0', c2, rfl, by decide, (isDigit_iff_toNat c2).mpr ⟨by omega, by omega⟩,
            ?_, ?_, ?_⟩
          · rw [digitVal_eq, digitVal_eq, toNat_d0]
            omega
          · rw [digitVal_eq]; omega
          · rw [digitVal_eq]; omega
        case isFalse hn3 =>
          split at h
          case isTrue hcond =>
            obtain ⟨hl, hr⟩ := hcond
            rw [char_le_iff_toNat, toNat_d1] at hl
            rw [char_le_iff_toNat, toNat_d9] at hr
            simp only [Option.some.injEq, Prod.mk.injEq] at h
            obtain ⟨rfl, rfl⟩ := h
            right
            exact ⟨c1, rfl, (isDigit_iff_toNat c1).mpr ⟨by omega, by omega⟩, rfl,
              by rw [digitVal_eq]; omega, by rw [digitVal_eq]; omega⟩
          case isFalse => simp at h

theorem specRelaxedChars_m1d2 (y1 y2 y3 y4 c1 e1 e2 : Char) (hne : e1 ≠ '-') :
    specRelaxedChars [y1, y2, y3, y4, '-', c1, '-', e1, e2]
      = (y1.isDigit && y2.isDigit && y3.isDigit && y4.isDigit && c1.isDigit && e1.isDigit &&
         e2.isDigit &&
         specDateOK (yearVal y1 y2 y3 y4) (digitVal c1) (10 * digitVal e1 + digitVal e2)) := by
  unfold specRelaxedChars
  split
  · next heq =>
    exfalso
    injection heq with g1 r1
    injection r1 with g2 r2
    injection r2 with g3 r3
    injection r3 with g4 r4
    injection r4 with g5 r5
    injection r5 with g6 r6
    injection r6 with g7 r7
    injection r7 with g8 r8
    exact List.noConfusion r8
  · next heq =>
    exfalso
    injection heq with g1 r1
    injection r1 with g2 r2
    injection r2 with g3 r3
    injection r3 with g4 r4
    injection r4 with g5 r5
    injection r5 with g6 r6
    injection r6 with g7 r7
    injection r7 with g8 r8
    exact hne g8
  · next heq =>
    injection heq with g1 r1
    injection r1 with g2 r2
    injection r2 with g3 r3
    injection r3 with g4 r4
    injection r4 with g5 r5
    injection r5 with g6 r6
    injection r6 with g7 r7
    injection r7 with g8 r8
    injection r8 with g9 r9
    subst g1; subst g2; subst g3; subst g4; subst g6; subst g8; subst g9
    rfl
  · next heq =>
    exfalso
    injection heq with g1 r1
    injection r1 with g2 r2
    injection r2 with g3 r3
    injection r3 with g4 r4
    injection r4 with g5 r5
    injection r5 with g6 r6
    injection r6 with g7 r7
    injection r7 with g8 r8
    injection r8 with g9 r9
    exact List.noConfusion r9
  · next h1 h2 h3 h4 =>
    exact absurd rfl (h3 y1 y2 y3 y4 c1 e1 e2)

theorem parseYMD_run_m1d1 (y1 y2 y3 y4 m1 d1 : Char)
    (hy1 : y1.isDigit = true) (hy2 : y2.isDigit = true)
    (hy3 : y3.isDigit = true) (hy4 : y4.isDigit = true)
    (hm : m1.isDigit = true) (hmv : 1 ≤ digitVal m1)
    (hd : d1.isDigit = true) (hdv : 1 ≤ digitVal d1) :
    parseYMDChars [y1, y2, y3, y4, '-', m1, '-', d1]
      = some (yearVal y1 y2 y3 y4, digitVal m1, digitVal d1) := by
  simp only [parseYMDChars]
  rw [if_pos ⟨hy1, hy2, hy3, hy4⟩, matchMonth_one m1 [d1] hm hmv]
  simp only
  rw [matchDay_single d1 hd hdv]
  simp only
  rfl

theorem parseYMD_run_m2d1 (y1 y2 y3 y4 m1 m2 d1 : Char)
    (hy1 : y1.isDigit = true) (hy2 : y2.isDigit = true)
    (hy3 : y3.isDigit = true) (hy4 : y4.isDigit = true)
    (hm1 : m1.isDigit = true) (hm2 : m2.isDigit = true)
    (hmlo : 1 ≤ 10 * digitVal m1 + digitVal m2) (hmhi : 10 * digitVal m1 + digitVal m2 ≤ 12)
    (hd : d1.isDigit = true) (hdv : 1 ≤ digitVal d1) :
    parseYMDChars [y1, y2, y3, y4, '-', m1, m2, '-', d1]
      = some (yearVal y1 y2 y3 y4, 10 * digitVal m1 + digitVal m2, digitVal d1) := by
  simp only [parseYMDChars]
  rw [if_pos ⟨hy1, hy2, hy3, hy4⟩, matchMonth_two m1 m2 ['-', d1] hm1 hm2 hmlo hmhi]
  simp only
  rw [matchDay_single d1 hd hdv]
  simp only
  rfl

theorem parseYMD_run_m1d2 (y1 y2 y3 y4 m1 d1 d2 : Char)
    (hy1 : y1.isDigit = true) (hy2 : y2.isDigit = true)
    (hy3 : y3.isDigit = true) (hy4 : y4.isDigit = true)
    (hm : m1.isDigit = true) (hmv : 1 ≤ digitVal m1)
    (hd1 : d1.isDigit = true) (hd2 : d2.isDigit = true)
    (hdlo : 1 ≤ 10 * digitVal d1 + digitVal d2) (hdhi : 10 * digitVal d1 + digitVal d2 ≤ 31) :
    parseYMDChars [y1, y2, y3, y4, '-', m1, '-', d1, d2]
      = some (yearVal y1 y2 y3 y4, digitVal m1, 10 * digitVal d1 + digitVal d2) := by
  simp only [parseYMDChars]
  rw [if_pos ⟨hy1, hy2, hy3, hy4⟩, matchMonth_one m1 [d1, d2] hm hmv]
  simp only
  rw [matchDay_double d1 d2 hd1 hd2 hdlo hdhi]
  simp only
  rfl

theorem parseYMD_run_m2d2 (y1 y2 y3 y4 m1 m2 d1 d2 : Char)
    (hy1 : y1.isDigit = true) (hy2 : y2.isDigit = true)
    (hy3 : y3.isDigit = true) (hy4 : y4.isDigit = true)
    (hm1 : m1.isDigit = true) (hm2 : m2.isDigit = true)
    (hmlo : 1 ≤ 10 * digitVal m1 + digitVal m2) (hmhi : 10 * digitVal m1 + digitVal m2 ≤ 12)
    (hd1 : d1.isDigit = true) (hd2 : d2.isDigit = true)
    (hdlo : 1 ≤ 10 * digitVal d1 + digitVal d2) (hdhi : 10 * digitVal d1 + digitVal d2 ≤ 31) :
    parseYMDChars [y1, y2, y3, y4, '-', m1, m2, '-', d1, d2]
      = some (yearVal y1 y2 y3 y4, 10 * digitVal m1 + digitVal m2,
          10 * digitVal d1 + digitVal d2) := by
  simp only [parseYMDChars]
  rw [if_pos ⟨hy1, hy2, hy3, hy4⟩, matchMonth_two m1 m2 ['-', d1, d2] hm1 hm2 hmlo hmhi]
  simp only
  rw [matchDay_double d1 d2 hd1 hd2 hdlo hdhi]
  simp only
  rfl

theorem parse_ok_iff_spec (cs : List Char) :
    (∃ y m d, parseYMDChars cs = some (y, m, d) ∧ 1 ≤ y ∧ d ≤ daysInMonth y m)
    ↔ specRelaxedChars cs = true := by
  constructor
  · rintro ⟨y, m, d, hp, hy, hd⟩
    simp only [parseYMDChars] at hp
    split at hp
    · next y1 y2 y3 y4 rest =>
      split at hp
      · next hdig =>
        obtain ⟨hdy1, hdy2, hdy3, hdy4⟩ := hdig
        rcases hmm2 : matchMonth rest with _ | ⟨m2, rest2⟩
        · rw [hmm2] at hp
          simp at hp
        · rw [hmm2] at hp
          simp only at hp
          split at hp
          · next rest3 =>
            rcases hdd : matchDay rest3 with _ | ⟨d2, rest4⟩
            · rw [hdd] at hp
              simp at hp
            · rw [hdd] at hp
              simp only at hp
              split at hp
              · next h4 =>
                subst h4
                simp only [Option.some.injEq, Prod.mk.injEq] at hp
                obtain ⟨rfl, rfl, rfl⟩ := hp
                rcases matchMonth_inv rest ('-' :: rest3) m2 hmm2 with
                  ⟨c1, c2, hrest, hc1, hc2, hm, hm1, hm2⟩ |
                    ⟨c1, hrest, hc1, hm, hm1, hm2⟩ <;>
                  rcases matchDay_inv rest3 [] d2 hdd with
                    ⟨e1, e2, hrest3, he1, he2, hdv, hdv1, hdv31⟩ |
                      ⟨e1, hrest3, he1, hdv, hdv1, hdv9⟩
                · subst hrest3; subst hrest; subst hm; subst hdv
                  simp [specRelaxedChars, specDateOK, yearVal, hdy1, hdy2, hdy3, hdy4,
                    hc1, hc2, he1, he2, hy, hd, hm1, hm2, hdv1]
                · subst hrest3; subst hrest; subst hm; subst hdv
                  simp [specRelaxedChars, specDateOK, yearVal, hdy1, hdy2, hdy3, hdy4,
                    hc1, hc2, he1, hy, hd, hm1, hm2, hdv1]
                · subst hrest3; subst hrest; subst hm; subst hdv
                  have hne : e1 ≠ '-' := by
                    intro hcon
                    rw [hcon] at he1
                    exact absurd he1 (by decide)
                  rw [specRelaxedChars_m1d2 y1 y2 y3 y4 c1 e1 e2 hne]
                  simp [specDateOK, yearVal, hdy1, hdy2, hdy3, hdy4,
                    hc1, he1, he2, hy, hd, hm1, hdv1]
                  omega
                · subst hrest3; subst hrest; subst hm; subst hdv
                  simp [specRelaxedChars, specDateOK, yearVal, hdy1, hdy2, hdy3, hdy4,
                    hc1, he1, hy, hd, hm1, hdv1]
                  omega
              · simp at hp
          · simp at hp
      · simp at hp
    · simp at hp
  · intro h
    unfold specRelaxedChars at h
    split at h
    · next y1 y2 y3 y4 m1 d1 =>
      simp only [Bool.and_eq_true, decide_eq_true_eq, specDateOK, and_assoc] at h
      obtain ⟨h1, h2, h3, h4, h5, h6, h7, h8, h9, h10, h11⟩ := h
      exact ⟨yearVal y1 y2 y3 y4, digitVal m1, digitVal d1,
        parseYMD_run_m1d1 y1 y2 y3 y4 m1 d1 h1 h2 h3 h4 h5 h8 h6 h10, h7, h11⟩
    · next y1 y2 y3 y4 m1 m2 d1 =>
      simp only [Bool.and_eq_true, decide_eq_true_eq, specDateOK, and_assoc] at h
      obtain ⟨h1, h2, h3, h4, h5, h6, h7, h8, h9, h10, h11, h12⟩ := h
      exact ⟨yearVal y1 y2 y3 y4, 10 * digitVal m1 + digitVal m2, digitVal d1,
        parseYMD_run_m2d1 y1 y2 y3 y4 m1 m2 d1 h1 h2 h3 h4 h5 h6 h9 h10 h7 h11, h8, h12⟩
    · next y1 y2 y3 y4 m1 d1 d2 hnp =>
      simp only [Bool.and_eq_true, decide_eq_true_eq, specDateOK, and_assoc] at h
      obtain ⟨h1, h2, h3, h4, h5, h6, h7, h8, h9, h10, h11, h12⟩ := h
      exact ⟨yearVal y1 y2 y3 y4, digitVal m1, 10 * digitVal d1 + digitVal d2,
        parseYMD_run_m1d2 y1 y2 y3 y4 m1 d1 d2 h1 h2 h3 h4 h5 h9 h6 h7 h11
          (le_trans h12 (daysInMonth_le_31 _ _)), h8, h12⟩
    · next y1 y2 y3 y4 m1 m2 d1 d2 =>
      simp only [Bool.and_eq_true, decide_eq_true_eq, specDateOK, and_assoc] at h
      obtain ⟨h1, h2, h3, h4, h5, h6, h7, h8, h9, h10, h11, h12, h13⟩ := h
      exact ⟨yearVal y1 y2 y3 y4, 10 * digitVal m1 + digitVal m2, 10 * digitVal d1 + digitVal d2,
        parseYMD_run_m2d2 y1 y2 y3 y4 m1 m2 d1 d2 h1 h2 h3 h4 h5 h6 h10 h11 h7 h8 h12
          (le_trans h13 (daysInMonth_le_31 _ _)), h9, h13⟩
    · simp at h

/-- Claim C5 counterexample: strptime with %Y-%m-%d also accepts
non-zero-padded month and day fields (CPython matches 1-or-2-digit values),
so validate_date accepts "2024-2-9", which the claimed zero-padded-only
format rejects. -/
theorem validate_date_nonpadded_cex :
    validate_date "2024-2-9" = Except.ok () ∧ specStrictYMD "2024-2-9" = false :=
  ⟨rfl, rfl⟩

/-- Claim C5 (amended): validate_date accepts a string if and only if it is
a four-digit-year, 1-or-2-digit-month, 1-or-2-digit-day, hyphen-separated
real proleptic Gregorian calendar date; zero padding is optional. The iff
against the independent format definition specRelaxedYMD is proved for
every string. The spec examples hold: 2024-02-29 succeeds, 2024-02-30 and
02-29-2024 fail with an error naming the offending value; but the
non-zero-padded 2024-2-9 and 2024-12-3 also succeed, while two-digit
years, out-of-range months and other separators still fail. -/
theorem validate_date_amended :
    (∀ s : String, validate_date s = Except.ok () ↔ specRelaxedYMD s = true)
    ∧ validate_date "2024-02-29" = Except.ok ()
    ∧ validate_date "2024-02-30"
      = Except.error (WError.valueError "Invalid date: 2024-02-30. Use YYYY-MM-DD.")
    ∧ validate_date "02-29-2024"
      = Except.error (WError.valueError "Invalid date: 02-29-2024. Use YYYY-MM-DD.")
    ∧ validate_date "2024-2-9" = Except.ok ()
    ∧ validate_date "2024-12-3" = Except.ok ()
    ∧ validate_date "999-01-01"
      = Except.error (WError.valueError "Invalid date: 999-01-01. Use YYYY-MM-DD.")
    ∧ validate_date "2024-13-01"
      = Except.error (WError.valueError "Invalid date: 2024-13-01. Use YYYY-MM-DD.")
    ∧ validate_date "2024-00-10"
      = Except.error (WError.valueError "Invalid date: 2024-00-10. Use YYYY-MM-DD.")
    ∧ validate_date "2024/02/09"
      = Except.error (WError.valueError "Invalid date: 2024/02/09. Use YYYY-MM-DD.") := by
  refine ⟨?_, rfl, rfl, rfl, rfl, rfl, rfl, rfl, rfl, rfl⟩
  intro s
  unfold specRelaxedYMD
  constructor
  · intro h
    unfold validate_date parseDateYMD at h
    rcases hpc : parseYMDChars s.data with _ | ⟨y, m, d⟩
    · rw [hpc] at h
      simp at h
    · rw [hpc] at h
      simp only at h
      by_cases hg : 1 ≤ y ∧ d ≤ daysInMonth y m
      · exact (parse_ok_iff_spec s.data).mp ⟨y, m, d, hpc, hg.1, hg.2⟩
      · rw [if_neg hg] at h
        simp at h
  · intro h
    obtain ⟨y, m, d, hpc, hy, hd⟩ := (parse_ok_iff_spec s.data).mpr h
    unfold validate_date parseDateYMD
    rw [hpc]
    simp only
    rw [if_pos ⟨hy, hd⟩]

theorem validate_date_amended_witness :
    specRelaxedYMD "2024-2-9" = true ∧ validate_date "2024-2-9" = Except.ok () :=
  ⟨rfl, (validate_date_amended.1 "2024-2-9").mpr rfl⟩

/-- Claim C7 counterexample: at days = 15 the operation does fail, but the
ValueError text names the old 1-3 bound, not the enforced 1-14 bound, so
the message does not match the enforced bound as the claim requires. -/
theorem forecast_days_message_cex :
    get_weather_forecast goodKey (okNet sampleResp) "London" 15 false false
      = (Except.error (WError.valueError "'days' must be between 1 and 3."), []) := rfl

/-- Claim C7 (amended): the enforced bound is 1-14: days = 14 proceeds to
the fetch, days = 15 and days = 0 fail before any fetch with an
InvalidArgument ValueError, but its message reads between 1 and 3,
mismatching the enforced bound. -/
theorem forecast_days_bound_amended (apiKey : Option String) (net : Net) (q : String)
    (aqi alerts : Bool) (hq : q.isEmpty = false) :
    get_weather_forecast apiKey net q 14 aqi alerts
      = callFetch apiKey net "forecast.json"
          [("q", q), ("days", "14"), ("aqi", if aqi then "yes" else "no"),
           ("alerts", if alerts then "yes" else "no")]
    ∧ get_weather_forecast apiKey net q 15 aqi alerts
      = (Except.error (WError.valueError "'days' must be between 1 and 3."), [])
    ∧ get_weather_forecast apiKey net q 0 aqi alerts
      = (Except.error (WError.valueError "'days' must be between 1 and 3."), []) := by
  refine ⟨?_, ?_, ?_⟩
  · simp [get_weather_forecast, hq]
    rfl
  · simp [get_weather_forecast, hq]
  · simp [get_weather_forecast, hq]

theorem forecast_days_bound_amended_witness :
    ("London" : String).isEmpty = false
    ∧ (get_weather_forecast goodKey failNet "London" 14 false false
        = callFetch goodKey failNet "forecast.json"
            [("q", "London"), ("days", "14"), ("aqi", "no"), ("alerts", "no")]
      ∧ get_weather_forecast goodKey failNet "London" 15 false false
        = (Except.error (WError.valueError "'days' must be between 1 and 3."), [])
      ∧ get_weather_forecast goodKey failNet "London" 0 false false
        = (Except.error (WError.valueError "'days' must be between 1 and 3."), [])) :=
  ⟨rfl, forecast_days_bound_amended goodKey failNet "London" false false rfl⟩

/-- Claim C3: with both dates well-formed and start_date chronologically
after end_date, get_historical_weather fails with the InvalidArgument
ValueError for every collaborator and every clock, and the list of
recorded fetch-collaborator invocations is empty: no network call is made. -/
theorem historical_start_after_end_no_fetch (apiKey : Option String) (net : Net) (t : Now)
    (q ss se : String) (ys ms ds ye me de : Nat)
    (hq : q.isEmpty = false)
    (hs : parseDateYMD ss = some (ys, ms, ds))
    (he : parseDateYMD se = some (ye, me, de))
    (hlt : ymdToOrd ye me de < ymdToOrd ys ms ds) :
    get_historical_weather apiKey net t q ss se
      = (Except.error (WError.valueError "start_date must be before end_date."), []) := by
  unfold get_historical_weather
  simp [hq, hs, he, hlt]

theorem historical_start_after_end_no_fetch_witness :
    ymdToOrd 2025 6 10 < ymdToOrd 2025 6 12
    ∧ get_historical_weather goodKey (okNet sampleResp) wTime "London" "2025-06-12" "2025-06-10"
      = (Except.error (WError.valueError "start_date must be before end_date."), []) :=
  ⟨by decide,
   historical_start_after_end_no_fetch goodKey (okNet sampleResp) wTime
     "London" "2025-06-12" "2025-06-10" 2025 6 12 2025 6 10 rfl rfl rfl (by decide)⟩

/-- Claim C10: when the (first) per-day fetch of a validated one-day range
succeeds with a dict response lacking the location key, the unguarded read
of that key raises a KeyError rather than any domain ValueError, even when
the same response also lacks the forecast shape the merge loop skips
silently. -/
theorem historical_missing_location_keyerror (apiKey : Option String) (net : Net) (t : Now)
    (q ss : String) (ys ms ds : Nat) (m : List (String × Json))
    (hq : q.isEmpty = false)
    (hs : parseDateYMD ss = some (ys, ms, ds))
    (hstart : ¬ ((ymdToOrd ys ms ds : Int) * 86400 < nowSec t - 365 * 86400))
    (hend : ¬ ((ymdToOrd ys ms ds : Int) * 86400 ≥ nowSec t))
    (hf : dayFetch apiKey net q (ymdToOrd ys ms ds) = .ok (Json.obj m))
    (hnoloc : m.lookup "location" = none) :
    get_historical_weather apiKey net t q ss ss
      = (Except.error (WError.keyError "location"), [dayReq q (ymdToOrd ys ms ds)]) := by
  rw [get_historical_weather_validated apiKey net t q ss ss ys ms ds ys ms ds
    hq hs hs (le_refl _) hstart hend]
  have hn : ymdToOrd ys ms ds + 1 - ymdToOrd ys ms ds = 1 := by omega
  have hr1 : List.range 1 = [0] := rfl
  simp only [aggregateHistory, hn, collectRange_spec, hr1, List.map_cons, List.map_nil,
    List.filterMap_cons, List.filterMap_nil, Nat.add_zero, hf, Except.toOption]
  simp [pyIndex, hnoloc]

theorem historical_missing_location_keyerror_witness :
    ([("forecast", Json.obj [("forecastday", Json.arr [])])] : List (String × Json)).lookup
        "location" = none
    ∧ get_historical_weather goodKey noLocNet wTime "London" "2025-06-10" "2025-06-10"
      = (Except.error (WError.keyError "location"), [dayReq "London" (ymdToOrd 2025 6 10)]) :=
  ⟨rfl,
   historical_missing_location_keyerror goodKey noLocNet wTime "London" "2025-06-10"
     2025 6 10 [("forecast", Json.obj [("forecastday", Json.arr [])])]
     rfl rfl (by decide) (by decide) rfl rfl⟩

/-- Claim C2: over a validated range, if every per-day fetch fails then the
operation raises exactly the no-data ValueError, returning no partial or
empty result; conversely, whenever the operation raises that error, every
day of the range failed. -/
theorem historical_no_data_iff_all_days_fail (apiKey : Option String) (net : Net) (t : Now)
    (q ss se : String) (ys ms ds ye me de : Nat)
    (hq : q.isEmpty = false)
    (hs : parseDateYMD ss = some (ys, ms, ds))
    (he : parseDateYMD se = some (ye, me, de))
    (hord : ymdToOrd ys ms ds ≤ ymdToOrd ye me de)
    (hstart : ¬ ((ymdToOrd ys ms ds : Int) * 86400 < nowSec t - 365 * 86400))
    (hend : ¬ ((ymdToOrd ye me de : Int) * 86400 ≥ nowSec t)) :
    ((∀ d, ymdToOrd ys ms ds ≤ d → d ≤ ymdToOrd ye me de →
        ∃ e, dayFetch apiKey net q d = .error e) →
      get_historical_weather apiKey net t q ss se
        = (Except.error (WError.valueError "No historical data found for the specified date range."),
           (List.range (ymdToOrd ye me de + 1 - ymdToOrd ys ms ds)).map
             (fun k => dayReq q (ymdToOrd ys ms ds + k))))
    ∧ ((get_historical_weather apiKey net t q ss se).1
        = Except.error (WError.valueError "No historical data found for the specified date range.") →
      ∀ d, ymdToOrd ys ms ds ≤ d → d ≤ ymdToOrd ye me de →
        ∃ e, dayFetch apiKey net q d = .error e) := by
  have hv := get_historical_weather_validated apiKey net t q ss se ys ms ds ye me de
    hq hs he hord hstart hend
  constructor
  · intro hall
    have hempty : (collectRange apiKey net q
        (ymdToOrd ye me de + 1 - ymdToOrd ys ms ds) (ymdToOrd ys ms ds)).1 = [] := by
      rw [collectRange_fst_nil_iff]
      intro k hk
      exact hall _ (Nat.le_add_right _ _) (by omega)
    rw [hv, aggregateHistory_empty _ _ _ _ _ hempty, collectRange_spec]
  · intro hres d h1 h2
    by_contra hne
    push_neg at hne
    have hnonempty : (collectRange apiKey net q
        (ymdToOrd ye me de + 1 - ymdToOrd ys ms ds) (ymdToOrd ys ms ds)).1 ≠ [] := by
      rw [Ne, collectRange_fst_nil_iff]
      intro hallfail
      obtain ⟨e, hfe⟩ := hallfail (d - ymdToOrd ys ms ds) (by omega)
      rw [show ymdToOrd ys ms ds + (d - ymdToOrd ys ms ds) = d from by omega] at hfe
      exact hne e hfe
    rw [hv] at hres
    exact aggregateHistory_fst_not_noData _ _ _ _ _ hnonempty _ hres

theorem historical_no_data_iff_all_days_fail_witness :
    ymdToOrd 2025 6 10 ≤ ymdToOrd 2025 6 11
    ∧ get_historical_weather goodKey failNet wTime "London" "2025-06-10" "2025-06-11"
      = (Except.error (WError.valueError "No historical data found for the specified date range."),
         (List.range (ymdToOrd 2025 6 11 + 1 - ymdToOrd 2025 6 10)).map
           (fun k => dayReq "London" (ymdToOrd 2025 6 10 + k))) :=
  ⟨by decide,
   (historical_no_data_iff_all_days_fail goodKey failNet wTime "London"
      "2025-06-10" "2025-06-11" 2025 6 10 2025 6 11
      rfl rfl rfl (by decide) (by decide) (by decide)).1
     (by
       intro d hd1 hd2
       have hcase : d = ymdToOrd 2025 6 10 ∨ d = ymdToOrd 2025 6 10 + 1 := by
         have : ymdToOrd 2025 6 11 = ymdToOrd 2025 6 10 + 1 := by decide
         omega
       rcases hcase with rfl | rfl
       · exact ⟨WError.valueError "Unexpected error: WeatherAPI error: boom", rfl⟩
       · exact ⟨WError.valueError "Unexpected error: WeatherAPI error: boom", rfl⟩)⟩

/-- Claim C1: over a validated 3-day range in which the middle per-day fetch
fails and the two outer fetches succeed with well-shaped responses, the
operation does not raise: it returns an aggregate whose location is copied
from the first successful response and whose forecast.forecastday is
exactly the concatenation, in chronological request order, of the two
successful responses own forecastday entries, a successful response that
lacks the shape contributing nothing. -/
theorem historical_partial_failure_aggregates (apiKey : Option String) (net : Net) (t : Now)
    (q ss se : String) (ys ms ds ye me de : Nat) (r1 r3 : Json) (e2 : WError) (loc : Json)
    (hq : q.isEmpty = false)
    (hs : parseDateYMD ss = some (ys, ms, ds))
    (he : parseDateYMD se = some (ye, me, de))
    (hspan : ymdToOrd ye me de = ymdToOrd ys ms ds + 2)
    (hstart : ¬ ((ymdToOrd ys ms ds : Int) * 86400 < nowSec t - 365 * 86400))
    (hend : ¬ ((ymdToOrd ye me de : Int) * 86400 ≥ nowSec t))
    (h1 : dayFetch apiKey net q (ymdToOrd ys ms ds) = .ok r1)
    (h2 : dayFetch apiKey net q (ymdToOrd ys ms ds + 1) = .error e2)
    (h3 : dayFetch apiKey net q (ymdToOrd ys ms ds + 2) = .ok r3)
    (hloc : pyIndex r1 "location" = .ok loc)
    (hs1 : shapeOK r1 = true) (hs3 : shapeOK r3 = true) :
    get_historical_weather apiKey net t q ss se
      = (Except.ok (Json.obj [("location", loc),
            ("forecast", Json.obj [("forecastday",
               Json.arr (forecastdayEntries r1 ++ forecastdayEntries r3))])]),
         [dayReq q (ymdToOrd ys ms ds), dayReq q (ymdToOrd ys ms ds + 1),
          dayReq q (ymdToOrd ys ms ds + 2)]) := by
  have hv := get_historical_weather_validated apiKey net t q ss se ys ms ds ye me de
    hq hs he (by omega) hstart hend
  rw [hv, hspan]
  have hn : ymdToOrd ys ms ds + 2 + 1 - ymdToOrd ys ms ds = 3 := by omega
  have hr3 : List.range 3 = [0, 1, 2] := rfl
  have hshapes : ∀ j ∈ [r1, r3], shapeOK j = true := by
    intro j hj
    simp only [List.mem_cons, List.not_mem_nil, or_false] at hj
    rcases hj with rfl | rfl
    · exact hs1
    · exact hs3
  simp only [aggregateHistory, hn, collectRange_spec, hr3, List.map_cons, List.map_nil,
    List.filterMap_cons, List.filterMap_nil, Nat.add_zero, h1, h2, h3, Except.toOption]
  simp only [hloc, foldForecast_shapeOK [r1, r3] [] hshapes]
  simp

theorem historical_partial_failure_aggregates_witness :
    shapeOK sampleResp = true
    ∧ get_historical_weather goodKey histNet wTime "London" "2025-06-10" "2025-06-12"
      = (Except.ok (Json.obj [("location", Json.str "CityA"),
            ("forecast", Json.obj [("forecastday",
               Json.arr [Json.str "d1", Json.str "b1", Json.str "b2"])])]),
         [dayReq "London" (ymdToOrd 2025 6 10), dayReq "London" (ymdToOrd 2025 6 10 + 1),
          dayReq "London" (ymdToOrd 2025 6 10 + 2)]) :=
  ⟨rfl,
   historical_partial_failure_aggregates goodKey histNet wTime "London"
     "2025-06-10" "2025-06-12" 2025 6 10 2025 6 12 sampleResp respB
     (WError.valueError "Unexpected error: WeatherAPI error: boom") (Json.str "CityA")
     rfl rfl rfl (by decide) (by decide) (by decide) rfl rfl rfl rfl rfl rfl⟩

/-- Claim C4 counterexample: with the clock at 2025-06-15 01:00, a call
whose end_date equals the current date is not rejected: validation passes,
the per-day loop runs and the operation returns an aggregated result,
because the parsed end_dt sits at midnight and so compares strictly before
datetime.now() whenever the call is not made exactly at midnight. -/
theorem historical_today_end_accepted_cex :
    get_historical_weather goodKey (okNet sampleResp) wTimeHour "London" "2025-06-15" "2025-06-15"
      = (Except.ok sampleResp,
         [⟨"history.json", [("q", "London"), ("dt", "2025-06-15")]⟩]) := rfl

/-- Claim C4 (amended): the range checks compare midnight datetimes against
the full datetime.now() timestamp, so at any call moment strictly after
midnight: an end_date strictly after the current date is rejected with
InvalidArgument before any fetch, but an end_date equal to the current date
passes validation and the operation proceeds to the per-day loop; a
start_date exactly 365 days before the current date is rejected as more
than 1 year ago, while one 364 days before passes. The boundaries the claim
states hold only for a call made exactly at midnight. -/
theorem historical_window_bounds_amended (apiKey : Option String) (net : Net) (t : Now)
    (q sToday eTom s365 s364 : String) (hq : q.isEmpty = false)
    (htod0 : 0 < t.tod) (htod1 : t.tod < 86400)
    (ya ma da yb mb db yc mc dc yd md dd : Nat)
    (hpa : parseDateYMD sToday = some (ya, ma, da)) (hoa : ymdToOrd ya ma da = t.day)
    (hpb : parseDateYMD eTom = some (yb, mb, db)) (hob : ymdToOrd yb mb db = t.day + 1)
    (hpc : parseDateYMD s365 = some (yc, mc, dc)) (hoc : ymdToOrd yc mc dc + 365 = t.day)
    (hpd : parseDateYMD s364 = some (yd, md, dd)) (hod : ymdToOrd yd md dd + 364 = t.day) :
    get_historical_weather apiKey net t q sToday eTom
      = (Except.error (WError.valueError "end_date must be in the past."), [])
    ∧ get_historical_weather apiKey net t q s365 sToday
      = (Except.error (WError.valueError "start_date cannot be more than 1 year ago."), [])
    ∧ get_historical_weather apiKey net t q sToday sToday
      = aggregateHistory apiKey net q (ymdToOrd ya ma da) (ymdToOrd ya ma da)
    ∧ get_historical_weather apiKey net t q s364 s364
      = aggregateHistory apiKey net q (ymdToOrd yd md dd) (ymdToOrd yd md dd) := by
  have hns : nowSec t = (t.day : Int) * 86400 + (t.tod : Int) := rfl
  refine ⟨?_, ?_, ?_, ?_⟩
  · have h1 : ¬ (ymdToOrd ya ma da > ymdToOrd yb mb db) := by omega
    have h2 : ¬ ((ymdToOrd ya ma da : Int) * 86400 < nowSec t - 365 * 86400) := by omega
    have h3 : ((ymdToOrd yb mb db : Int) * 86400 ≥ nowSec t) := by omega
    unfold get_historical_weather
    simp [hq, hpa, hpb, h1, h2, h3]
    omega
  · have h1 : ¬ (ymdToOrd yc mc dc > ymdToOrd ya ma da) := by omega
    have h2 : ((ymdToOrd yc mc dc : Int) * 86400 < nowSec t - 365 * 86400) := by omega
    unfold get_historical_weather
    simp [hq, hpc, hpa, h1, h2]
    omega
  · exact get_historical_weather_validated apiKey net t q sToday sToday ya ma da ya ma da
      hq hpa hpa (le_refl _) (by omega) (by omega)
  · exact get_historical_weather_validated apiKey net t q s364 s364 yd md dd yd md dd
      hq hpd hpd (le_refl _) (by omega) (by omega)

theorem historical_window_bounds_amended_witness :
    0 < wTimeHour.tod
    ∧ (get_historical_weather goodKey (okNet sampleResp) wTimeHour "London" "2025-06-15" "2025-06-16"
        = (Except.error (WError.valueError "end_date must be in the past."), [])
      ∧ get_historical_weather goodKey (okNet sampleResp) wTimeHour "London" "2024-06-15" "2025-06-15"
        = (Except.error (WError.valueError "start_date cannot be more than 1 year ago."), [])
      ∧ get_historical_weather goodKey (okNet sampleResp) wTimeHour "London" "2025-06-15" "2025-06-15"
        = aggregateHistory goodKey (okNet sampleResp) "London" (ymdToOrd 2025 6 15) (ymdToOrd 2025 6 15)
      ∧ get_historical_weather goodKey (okNet sampleResp) wTimeHour "London" "2024-06-16" "2024-06-16"
        = aggregateHistory goodKey (okNet sampleResp) "London" (ymdToOrd 2024 6 16) (ymdToOrd 2024 6 16)) :=
  ⟨by decide,
   historical_window_bounds_amended goodKey (okNet sampleResp) wTimeHour
     "London" "2025-06-15" "2025-06-16" "2024-06-15" "2024-06-16" rfl
     (by decide) (by decide)
     2025 6 15 2025 6 16 2024 6 15 2024 6 16
     rfl (by decide) rfl (by decide) rfl (by decide) rfl (by decide)⟩

/-- Claim C8 counterexample: search_locations does not return the fetched
ProviderResponse unchanged: the fetched list payload is wrapped as the
items field of a fresh object, which differs from the fetched value. -/
theorem search_wraps_response_cex :
    search_locations goodKey (okNet (Json.arr [])) "Lon"
      = (Except.ok (Json.obj [("items", Json.arr [])]), [⟨"search.json", [("q", "Lon")]⟩])
    ∧ fetch goodKey (okNet (Json.arr [])) "search.json" [("q", "Lon")] = Except.ok (Json.arr [])
    ∧ Json.obj [("items", Json.arr [])] ≠ Json.arr [] :=
  ⟨rfl, rfl, fun h => Json.noConfusion h⟩

/-- Claim C8 (amended): every single-call operation except search_locations
returns the fetch collaborator result unchanged for valid inputs, with the
documented endpoint and parameter mapping and booleans serialized as yes
and no (marine sends tide only when requested); errors propagate unchanged
for all of them. search_locations also propagates fetch errors unchanged
but wraps a successful response as the items field of a new object instead
of returning it unchanged. -/
theorem single_call_delegation_amended (apiKey : Option String) (net : Net)
    (q dateH dateA : String) (days : Int) (aqi alerts tide : Bool) (r : Json) (e : WError)
    (hq : q.isEmpty = false) (hdays : 1 ≤ days ∧ days ≤ 14)
    (hdh : validate_date dateH = .ok ()) (hda : validate_date dateA = .ok ()) :
    get_current_weather apiKey net q aqi
      = callFetch apiKey net "current.json" [("q", q), ("aqi", if aqi then "yes" else "no")]
    ∧ get_weather_forecast apiKey net q days aqi alerts
      = callFetch apiKey net "forecast.json"
          [("q", q), ("days", toString days), ("aqi", if aqi then "yes" else "no"),
           ("alerts", if alerts then "yes" else "no")]
    ∧ get_weather_history apiKey net q dateH
      = callFetch apiKey net "history.json" [("q", q), ("dt", dateH)]
    ∧ get_weather_airquality apiKey net q
      = callFetch apiKey net "current.json" [("q", q), ("aqi", "yes")]
    ∧ get_astronomy_data apiKey net q dateA
      = callFetch apiKey net "astronomy.json" [("q", q), ("dt", dateA)]
    ∧ get_timezone apiKey net q = callFetch apiKey net "timezone.json" [("q", q)]
    ∧ get_sport_events apiKey net q = callFetch apiKey net "sports.json" [("q", q)]
    ∧ get_marine_weather apiKey net q tide
      = callFetch apiKey net "marine.json"
          (if tide then [("q", q), ("tide", "yes")] else [("q", q)])
    ∧ (fetch apiKey net "search.json" [("q", q)] = .error e →
        search_locations apiKey net q = (.error e, [⟨"search.json", [("q", q)]⟩]))
    ∧ (fetch apiKey net "search.json" [("q", q)] = .ok r →
        search_locations apiKey net q
          = (.ok (Json.obj [("items", r)]), [⟨"search.json", [("q", q)]⟩])) := by
  obtain ⟨hd1, hd2⟩ := hdays
  have hdc : ¬ (days < 1 ∨ days > 14) := by omega
  refine ⟨?_, ?_, ?_, ?_, ?_, ?_, ?_, ?_, ?_, ?_⟩
  · simp [get_current_weather, hq]
  · simp [get_weather_forecast, hq, hdc]
  · simp [get_weather_history, hq, hdh]
  · simp [get_weather_airquality, hq]
  · simp [get_astronomy_data, hq, hda]
  · simp [get_timezone, hq]
  · simp [get_sport_events, hq]
  · simp [get_marine_weather, hq]
  · intro herr
    simp [search_locations, hq, herr]
  · intro hok
    simp [search_locations, hq, hok]

theorem single_call_delegation_amended_witness :
    ("London" : String).isEmpty = false
    ∧ (get_current_weather goodKey (okNet sampleResp) "London" false
        = callFetch goodKey (okNet sampleResp) "current.json" [("q", "London"), ("aqi", "no")]
      ∧ get_weather_forecast goodKey (okNet sampleResp) "London" 2 false false
        = callFetch goodKey (okNet sampleResp) "forecast.json"
            [("q", "London"), ("days", "2"), ("aqi", "no"), ("alerts", "no")]
      ∧ get_weather_history goodKey (okNet sampleResp) "London" "2024-05-05"
        = callFetch goodKey (okNet sampleResp) "history.json" [("q", "London"), ("dt", "2024-05-05")]
      ∧ get_weather_airquality goodKey (okNet sampleResp) "London"
        = callFetch goodKey (okNet sampleResp) "current.json" [("q", "London"), ("aqi", "yes")]
      ∧ get_astronomy_data goodKey (okNet sampleResp) "London" "2024-05-06"
        = callFetch goodKey (okNet sampleResp) "astronomy.json" [("q", "London"), ("dt", "2024-05-06")]
      ∧ get_timezone goodKey (okNet sampleResp) "London"
        = callFetch goodKey (okNet sampleResp) "timezone.json" [("q", "London")]
      ∧ get_sport_events goodKey (okNet sampleResp) "London"
        = callFetch goodKey (okNet sampleResp) "sports.json" [("q", "London")]
      ∧ get_marine_weather goodKey (okNet sampleResp) "London" true
        = callFetch goodKey (okNet sampleResp) "marine.json" [("q", "London"), ("tide", "yes")]
      ∧ (fetch goodKey (okNet sampleResp) "search.json" [("q", "London")]
            = .error (WError.valueError "x") →
          search_locations goodKey (okNet sampleResp) "London"
            = (.error (WError.valueError "x"), [⟨"search.json", [("q", "London")]⟩]))
      ∧ (fetch goodKey (okNet sampleResp) "search.json" [("q", "London")] = .ok sampleResp →
          search_locations goodKey (okNet sampleResp) "London"
            = (.ok (Json.obj [("items", sampleResp)]), [⟨"search.json", [("q", "London")]⟩]))) :=
  ⟨rfl,
   single_call_delegation_amended goodKey (okNet sampleResp) "London" "2024-05-05" "2024-05-06"
     2 false false true sampleResp (WError.valueError "x") rfl ⟨by decide, by decide⟩ rfl rfl⟩

/-- Claim C6 counterexample: with the clock at 2025-01-01 01:00 the target
2025-10-29 is exactly 301 days ahead of the current date, yet the operation
proceeds to the fetch and returns its response, because the timedelta days
attribute floors through the elapsed hour and gives days_diff = 300. -/
theorem future_301_days_accepted_cex :
    get_future_weather goodKey (okNet sampleResp) wTimeJan "London" "2025-10-29"
      = (Except.ok sampleResp, [⟨"future.json", [("q", "London"), ("dt", "2025-10-29")]⟩]) := rfl

/-- Claim C6 (amended): evaluated at a current timestamp strictly after
midnight, the flooring of the timedelta days attribute shifts both claimed
bounds by one: a target exactly 15 days ahead of the current date proceeds
to the fetch (days_diff = 14) and one exactly 301 days ahead proceeds
(days_diff = 300), while 14 days ahead fails the lower bound with
InvalidArgument (days_diff = 13) and 302 days ahead fails the upper bound
(days_diff = 301); only at exactly midnight do the claimed 14-ahead and
300-ahead boundaries succeed as stated. -/
theorem future_window_bounds_amended (apiKey : Option String) (net : Net) (t : Now)
    (q d14 d15 d301 d302 : String) (hq : q.isEmpty = false)
    (htod0 : 0 < t.tod) (htod1 : t.tod < 86400)
    (ya ma da yb mb db yc mc dc yd md dd : Nat)
    (hpa : parseDateYMD d14 = some (ya, ma, da)) (hoa : ymdToOrd ya ma da = t.day + 14)
    (hpb : parseDateYMD d15 = some (yb, mb, db)) (hob : ymdToOrd yb mb db = t.day + 15)
    (hpc : parseDateYMD d301 = some (yc, mc, dc)) (hoc : ymdToOrd yc mc dc = t.day + 301)
    (hpd : parseDateYMD d302 = some (yd, md, dd)) (hod : ymdToOrd yd md dd = t.day + 302) :
    get_future_weather apiKey net t q d14
      = (Except.error (WError.valueError "date must be at least 14 days in the future."), [])
    ∧ get_future_weather apiKey net t q d15
      = callFetch apiKey net "future.json" [("q", q), ("dt", d15)]
    ∧ get_future_weather apiKey net t q d301
      = callFetch apiKey net "future.json" [("q", q), ("dt", d301)]
    ∧ get_future_weather apiKey net t q d302
      = (Except.error (WError.valueError "date cannot be more than 300 days in the future."), []) := by
  have ea : Int.fdiv ((ymdToOrd ya ma da : Int) * 86400 - nowSec t) 86400 = 13 := by
    rw [hoa]; unfold nowSec; apply fdiv_86400_eq <;> push_cast <;> omega
  have eb : Int.fdiv ((ymdToOrd yb mb db : Int) * 86400 - nowSec t) 86400 = 14 := by
    rw [hob]; unfold nowSec; apply fdiv_86400_eq <;> push_cast <;> omega
  have ec : Int.fdiv ((ymdToOrd yc mc dc : Int) * 86400 - nowSec t) 86400 = 300 := by
    rw [hoc]; unfold nowSec; apply fdiv_86400_eq <;> push_cast <;> omega
  have ed : Int.fdiv ((ymdToOrd yd md dd : Int) * 86400 - nowSec t) 86400 = 301 := by
    rw [hod]; unfold nowSec; apply fdiv_86400_eq <;> push_cast <;> omega
  refine ⟨?_, ?_, ?_, ?_⟩
  · simp [get_future_weather, hq, hpa, ea]
  · simp [get_future_weather, hq, hpb, eb]
  · simp [get_future_weather, hq, hpc, ec]
  · simp [get_future_weather, hq, hpd, ed]

theorem future_window_bounds_amended_witness :
    0 < wTimeJan.tod
    ∧ (get_future_weather goodKey (okNet sampleResp) wTimeJan "London" "2025-01-15"
        = (Except.error (WError.valueError "date must be at least 14 days in the future."), [])
      ∧ get_future_weather goodKey (okNet sampleResp) wTimeJan "London" "2025-01-16"
        = callFetch goodKey (okNet sampleResp) "future.json" [("q", "London"), ("dt", "2025-01-16")]
      ∧ get_future_weather goodKey (okNet sampleResp) wTimeJan "London" "2025-10-29"
        = callFetch goodKey (okNet sampleResp) "future.json" [("q", "London"), ("dt", "2025-10-29")]
      ∧ get_future_weather goodKey (okNet sampleResp) wTimeJan "London" "2025-10-30"
        = (Except.error (WError.valueError "date cannot be more than 300 days in the future."), [])) :=
  ⟨by decide,
   future_window_bounds_amended goodKey (okNet sampleResp) wTimeJan
     "London" "2025-01-15" "2025-01-16" "2025-10-29" "2025-10-30" rfl
     (by decide) (by decide)
     2025 1 15 2025 1 16 2025 10 29 2025 10 30
     rfl (by decide) rfl (by decide) rfl (by decide) rfl (by decide)⟩

/-- Claim C9 counterexample: with the API key absent, get_historical_weather
does not fail with the configuration error naming the missing key: its
per-day loop swallows every per-day configuration failure and the call
raises the no-data aggregation ValueError instead, converting the
configuration error into a different error. -/
theorem missing_key_historical_cex :
    (get_historical_weather none (okNet sampleResp) wTimeHour
        "London" "2025-06-14" "2025-06-14").1
      = Except.error (WError.valueError "No historical data found for the specified date range.")
    ∧ WError.valueError "No historical data found for the specified date range."
      ≠ WError.valueError "Weather API key not set." :=
  ⟨rfl, by decide⟩

/-- Claim C9 (amended): with the API key unset, every operation still fails
for every collaborator, hence before any network attempt; every single-call
operation (current, forecast, history, air quality, astronomy, search,
timezone, sports, marine, future) fails with the configuration ValueError
identifying the unset key, but get_historical_weather converts it: the
per-day loop swallows the per-day configuration errors and the operation
raises the no-data aggregation ValueError instead. -/
theorem missing_key_behavior_amended (apiKey : Option String) (net : Net) (t : Now)
    (q dateH dateA dF ss se : String) (days : Int) (aqi alerts tide : Bool)
    (hkey : keyIsSet apiKey = false)
    (hq : q.isEmpty = false) (hdays : 1 ≤ days ∧ days ≤ 14)
    (hdh : validate_date dateH = .ok ()) (hda : validate_date dateA = .ok ())
    (yf mf df : Nat)
    (hpf : parseDateYMD dF = some (yf, mf, df)) (hof : ymdToOrd yf mf df = t.day + 20)
    (htod1 : t.tod < 86400)
    (ys ms ds ye me de : Nat)
    (hs : parseDateYMD ss = some (ys, ms, ds)) (he : parseDateYMD se = some (ye, me, de))
    (hord : ymdToOrd ys ms ds ≤ ymdToOrd ye me de)
    (hstart : ¬ ((ymdToOrd ys ms ds : Int) * 86400 < nowSec t - 365 * 86400))
    (hend : ¬ ((ymdToOrd ye me de : Int) * 86400 ≥ nowSec t)) :
    (get_current_weather apiKey net q aqi).1
      = Except.error (WError.valueError "Weather API key not set.")
    ∧ (get_weather_forecast apiKey net q days aqi alerts).1
      = Except.error (WError.valueError "Weather API key not set.")
    ∧ (get_weather_history apiKey net q dateH).1
      = Except.error (WError.valueError "Weather API key not set.")
    ∧ (get_weather_airquality apiKey net q).1
      = Except.error (WError.valueError "Weather API key not set.")
    ∧ (get_astronomy_data apiKey net q dateA).1
      = Except.error (WError.valueError "Weather API key not set.")
    ∧ (search_locations apiKey net q).1
      = Except.error (WError.valueError "Weather API key not set.")
    ∧ (get_timezone apiKey net q).1
      = Except.error (WError.valueError "Weather API key not set.")
    ∧ (get_sport_events apiKey net q).1
      = Except.error (WError.valueError "Weather API key not set.")
    ∧ (get_marine_weather apiKey net q tide).1
      = Except.error (WError.valueError "Weather API key not set.")
    ∧ (get_future_weather apiKey net t q dF).1
      = Except.error (WError.valueError "Weather API key not set.")
    ∧ (get_historical_weather apiKey net t q ss se).1
      = Except.error (WError.valueError "No historical data found for the specified date range.") := by
  obtain ⟨hd1, hd2⟩ := hdays
  have hdc : ¬ (days < 1 ∨ days > 14) := by omega
  have hns : nowSec t = (t.day : Int) * 86400 + (t.tod : Int) := rfl
  refine ⟨?_, ?_, ?_, ?_, ?_, ?_, ?_, ?_, ?_, ?_, ?_⟩
  · simp [get_current_weather, hq, callFetch, fetch, hkey]
  · simp [get_weather_forecast, hq, hdc, callFetch, fetch, hkey]
  · simp [get_weather_history, hq, hdh, callFetch, fetch, hkey]
  · simp [get_weather_airquality, hq, callFetch, fetch, hkey]
  · simp [get_astronomy_data, hq, hda, callFetch, fetch, hkey]
  · simp [search_locations, hq, fetch, hkey]
  · simp [get_timezone, hq, callFetch, fetch, hkey]
  · simp [get_sport_events, hq, callFetch, fetch, hkey]
  · simp [get_marine_weather, hq, callFetch, fetch, hkey]
  · have hdd : Int.fdiv ((ymdToOrd yf mf df : Int) * 86400 - nowSec t) 86400 = 20
        ∨ Int.fdiv ((ymdToOrd yf mf df : Int) * 86400 - nowSec t) 86400 = 19 := by
      rcases Nat.eq_zero_or_pos t.tod with h0 | hpos
      · left
        apply fdiv_86400_eq <;> rw [hof] <;> push_cast <;> omega
      · right
        apply fdiv_86400_eq <;> rw [hof] <;> push_cast <;> omega
    rcases hdd with hdv | hdv
    · norm_num [get_future_weather, hq, hpf, hdv, callFetch, fetch, hkey]
    · norm_num [get_future_weather, hq, hpf, hdv, callFetch, fetch, hkey]
  · rw [get_historical_weather_validated apiKey net t q ss se ys ms ds ye me de
      hq hs he hord hstart hend]
    have hempty : (collectRange apiKey net q
        (ymdToOrd ye me de + 1 - ymdToOrd ys ms ds) (ymdToOrd ys ms ds)).1 = [] := by
      rw [collectRange_fst_nil_iff]
      intro k hk
      exact ⟨WError.valueError "Weather API key not set.", by simp [dayFetch, fetch, hkey]⟩
    rw [aggregateHistory_empty _ _ _ _ _ hempty]

theorem missing_key_behavior_amended_witness :
    keyIsSet none = false
    ∧ ((get_current_weather none (okNet sampleResp) "London" false).1
        = Except.error (WError.valueError "Weather API key not set.")
      ∧ (get_weather_forecast none (okNet sampleResp) "London" 2 false false).1
        = Except.error (WError.valueError "Weather API key not set.")
      ∧ (get_weather_history none (okNet sampleResp) "London" "2024-05-05").1
        = Except.error (WError.valueError "Weather API key not set.")
      ∧ (get_weather_airquality none (okNet sampleResp) "London").1
        = Except.error (WError.valueError "Weather API key not set.")
      ∧ (get_astronomy_data none (okNet sampleResp) "London" "2024-05-06").1
        = Except.error (WError.valueError "Weather API key not set.")
      ∧ (search_locations none (okNet sampleResp) "London").1
        = Except.error (WError.valueError "Weather API key not set.")
      ∧ (get_timezone none (okNet sampleResp) "London").1
        = Except.error (WError.valueError "Weather API key not set.")
      ∧ (get_sport_events none (okNet sampleResp) "London").1
        = Except.error (WError.valueError "Weather API key not set.")
      ∧ (get_marine_weather none (okNet sampleResp) "London" true).1
        = Except.error (WError.valueError "Weather API key not set.")
      ∧ (get_future_weather none (okNet sampleResp) wTimeHour "London" "2025-07-05").1
        = Except.error (WError.valueError "Weather API key not set.")
      ∧ (get_historical_weather none (okNet sampleResp) wTimeHour
            "London" "2025-06-14" "2025-06-14").1
        = Except.error
            (WError.valueError "No historical data found for the specified date range.")) :=
  ⟨rfl,
   missing_key_behavior_amended none (okNet sampleResp) wTimeHour
     "London" "2024-05-05" "2024-05-06" "2025-07-05" "2025-06-14" "2025-06-14"
     2 false false true rfl rfl ⟨by decide, by decide⟩ rfl rfl
     2025 7 5 rfl (by decide) (by decide)
     2025 6 14 2025 6 14 rfl rfl (le_refl _) (by decide) (by decide)⟩

end WeatherApi
